/-
Verification of the vc-audit-tool valuation backend.

This file gives a shallow embedding of the backend's valuation code
(`backend/valuation/dcf.py`, `comps.py`, `blender.py`, `last_round.py`,
`backend/pipeline/step_valuate.py`, `backend/services/pipeline_status.py`)
and proves properties of it.

Modelling conventions:
* Python floats are modelled as elements of a linear ordered field `α`
  (instantiated at `ℚ` where proofs are by computation, and at `ℝ` for the
  code that calls `math.log10`).  Float rounding error is not modelled.
* Python exceptions (`IndexError` from `lst[-1]` on an empty list,
  `ZeroDivisionError` from `x / 0.0`) are modelled with `Except PyError`.
* `datetime.now()` / `strptime` wall-clock arithmetic is abstracted as a
  parameter `months_since_of : String → Option ℤ` giving the number of
  months since a round date (`none` when the date fails to parse).
* Warning / message strings are modelled with their static skeleton;
  interpolated float values are elided (integers are kept).  String
  contents only matter to the code through substring checks such as
  `"model-estimated" in w`, which the skeletons preserve.
* `round(x, n)` is modelled as `round (x * 10^n) / 10^n` with Lean's
  half-up `round`; Python uses half-even, which only differs at exact
  half-ulps and never affects the stated rounding-tolerance bounds.
-/
import Mathlib

/-- Substring containment, modelling Python's `needle in s`. -/
def str_contains (s needle : String) : Bool :=
  s.toList.tails.any fun t => needle.toList.isPrefixOf t

/-- Python's two-argument `max(a, b)`: returns `b` when `a < b`, else `a`. -/
def py_max {α : Type} [LinearOrder α] (a b : α) : α :=
  if a < b then b else a

theorem py_max_eq_max {α : Type} [LinearOrder α] (a b : α) : py_max a b = max a b := by
  unfold py_max
  rcases lt_or_ge a b with h | h
  · rw [if_pos h, max_eq_right h.le]
  · rw [if_neg (not_lt.mpr h), max_eq_left h]

/-- Numeric truthiness of an optional float, modelling Python's
`if x:` on `float | None`: `None` and `0.0` are falsy. -/
def option_truthy {α : Type} [LinearOrderedField α] (x : Option α) : Bool :=
  match x with
  | none => false
  | some v => decide (v ≠ 0)

/-- The Python exceptions that the DCF engine can raise. -/
inductive PyError where
  | indexError
  | zeroDivError
deriving DecidableEq

section DCFEngine

variable {α : Type} [LinearOrderedField α] [FloorRing α]

/-- Model of `backend/models/request.py` — `FinancialProjections`. -/
structure FinancialProjections (α : Type) where
  revenue_projections : List α
  ebitda_margins : List α
  capex_percent : α
  nwc_change_percent : α
  tax_rate : α
  wacc : α
  terminal_growth_rate : α
  depreciation_percent : α

/-- Model of `backend/models/valuations.py` — `SensitivityCell`. -/
structure SensitivityCell (α : Type) where
  wacc : α
  terminal_growth_rate : α
  enterprise_value : α

/-- Model of `backend/models/valuations.py` — `DCFResult`. -/
structure DCFResult (α : Type) where
  method : String := "dcf"
  enterprise_value : α
  projected_fcfs : List α
  terminal_value : α
  discount_rate : α
  terminal_growth_rate : α
  warnings : List String
  sensitivity_table : List (SensitivityCell α) := []

/-- Model of `dcf.py` line 21:
`margin = ebitda_margins[i] if i < len(ebitda_margins) else ebitda_margins[-1]`;
`[-1]` on an empty list raises `IndexError`. -/
def ebitda_margin_at (margins : List α) (i : ℕ) : Except PyError α :=
  if i < margins.length then .ok (margins.getD i 0)
  else
    match margins.getLast? with
    | some m => .ok m
    | none => .error .indexError

/-- Model of `dcf.py` lines 22-28: one year's free cash flow from revenue and margin. -/
def fcf_of (revenue margin capex_percent nwc_change_percent tax_rate depreciation_percent : α) : α :=
  let ebitda := revenue * margin
  let da := revenue * depreciation_percent
  let ebit := ebitda - da
  let tax := py_max 0 (ebit * tax_rate)
  let capex := revenue * capex_percent
  let nwc_change := revenue * nwc_change_percent
  ebitda - tax - capex - nwc_change

/-- Model of `dcf.py` lines 19-29: the per-year FCF loop, starting at year index `i`. -/
def fcf_list_from (margins : List α) (capex nwc tax dep : α) : ℕ → List α → Except PyError (List α)
  | _, [] => .ok []
  | i, rev :: rest => do
    let m ← ebitda_margin_at margins i
    let fs ← fcf_list_from margins capex nwc tax dep (i + 1) rest
    .ok (fcf_of rev m capex nwc tax dep :: fs)

/-- Model of `dcf.py` lines 19-29: the per-year FCF loop over all projected revenues. -/
def fcf_list (revs margins : List α) (capex nwc tax dep : α) : Except PyError (List α) :=
  fcf_list_from margins capex nwc tax dep 0 revs

/-- Model of `dcf.py` line 31: `fcf / (1 + wacc) ** (i + 1)` for each year (first index `i`);
a zero denominator raises `ZeroDivisionError`. -/
def discounted_fcfs_from (wacc : α) : ℕ → List α → Except PyError (List α)
  | _, [] => .ok []
  | i, f :: fs =>
    if (1 + wacc) ^ (i + 1) = 0 then .error .zeroDivError
    else do
      let rest ← discounted_fcfs_from wacc (i + 1) fs
      .ok (f / (1 + wacc) ^ (i + 1) :: rest)

/-- Model of `dcf.py` line 31: the discounted list of all FCFs. -/
def discounted_fcfs (fcfs : List α) (wacc : α) : Except PyError (List α) :=
  discounted_fcfs_from wacc 0 fcfs

/-- Model of `dcf.py` lines 5-38 — `_compute_ev`.
Returns `(enterprise_value, fcfs, terminal_value)`. -/
def compute_ev (revs margins : List α) (capex nwc tax dep wacc tgr : α) :
    Except PyError (α × List α × α) := do
  let fcfs ← fcf_list revs margins capex nwc tax dep
  let pv_fcfs := (← discounted_fcfs fcfs wacc).sum
  let last ←
    match fcfs.getLast? with
    | some x => Except.ok x
    | none => Except.error PyError.indexError
  let terminal_fcf := last * (1 + tgr)
  let terminal_value ←
    if wacc - tgr = 0 then Except.error PyError.zeroDivError
    else Except.ok (terminal_fcf / (wacc - tgr))
  let pv_terminal ←
    if (1 + wacc) ^ revs.length = 0 then Except.error PyError.zeroDivError
    else Except.ok (terminal_value / (1 + wacc) ^ revs.length)
  Except.ok (pv_fcfs + pv_terminal, fcfs, terminal_value)

/-- Python's `round(x, ndigits)` (see file header on rounding mode). -/
def py_round (x : α) (ndigits : ℕ) : α :=
  ((round (x * 10 ^ ndigits) : ℤ) : α) / 10 ^ ndigits

/-- Sequential effectful map over a list in the `Except` monad: the first
error aborts, as a Python `for` loop does. -/
def except_map_list {γ δ : Type} (f : γ → Except PyError δ) : List γ → Except PyError (List δ)
  | [] => .ok []
  | x :: xs => do
    let y ← f x
    let ys ← except_map_list f xs
    .ok (y :: ys)

/-- Model of `dcf.py` lines 41-70 — `_compute_sensitivity_table`.
5x5 grid, skipping cells with `w <= t or w <= 0`. -/
def compute_sensitivity_table (revs margins : List α) (capex nwc tax dep base_wacc base_tgr : α) :
    Except PyError (List (SensitivityCell α)) :=
  let wacc_steps := ([-(2/100), -(1/100), 0, 1/100, 2/100] : List α).map (fun d => base_wacc + d)
  let tgr_steps := ([-(1/100), -(1/200), 0, 1/200, 1/100] : List α).map (fun d => base_tgr + d)
  let pairs := wacc_steps.flatMap fun w => tgr_steps.map fun t => (w, t)
  except_map_list
    (fun p =>
      (compute_ev revs margins capex nwc tax dep p.1 p.2).map fun r =>
        SensitivityCell.mk (py_round p.1 4) (py_round p.2 4) (py_round r.1 2))
    (pairs.filter fun p => decide (p.2 < p.1) && decide (0 < p.1))

/-- Model of `dcf.py` line 80 warning (float interpolation elided). -/
def wacc_guard_warning : String :=
  "WACC must be greater than terminal growth rate"

/-- Model of `dcf.py` lines 73-134 — `compute_dcf_valuation`. -/
def compute_dcf_valuation (p : FinancialProjections α) : Except PyError (DCFResult α) :=
  if p.wacc ≤ p.terminal_growth_rate then
    .ok { enterprise_value := 0, projected_fcfs := [], terminal_value := 0,
          discount_rate := p.wacc, terminal_growth_rate := p.terminal_growth_rate,
          warnings := [wacc_guard_warning] }
  else if p.revenue_projections.length = 0 then
    .ok { enterprise_value := 0, projected_fcfs := [], terminal_value := 0,
          discount_rate := p.wacc, terminal_growth_rate := p.terminal_growth_rate,
          warnings := ["No revenue projections provided"] }
  else do
    let r ← compute_ev p.revenue_projections p.ebitda_margins p.capex_percent
      p.nwc_change_percent p.tax_rate p.depreciation_percent p.wacc p.terminal_growth_rate
    let table ← compute_sensitivity_table p.revenue_projections p.ebitda_margins p.capex_percent
      p.nwc_change_percent p.tax_rate p.depreciation_percent p.wacc p.terminal_growth_rate
    .ok { enterprise_value := r.1, projected_fcfs := r.2.1, terminal_value := r.2.2,
          discount_rate := p.wacc, terminal_growth_rate := p.terminal_growth_rate,
          warnings := [], sensitivity_table := table }

end DCFEngine

section Blender

variable {α : Type} [LinearOrderedField α]

/-- Model of `backend/models/valuations.py` — `CompSelectionScore`. -/
structure CompSelectionScore (α : Type) where
  ticker : String
  name : Option String := none
  included : Bool
  sector_score : α
  size_proximity_score : α
  data_quality_score : α
  composite_score : α
  exclusion_reason : Option String := none

/-- Model of the `selection_criteria` dict built in `comps.py` lines 116-123
(`none` models the empty dict of the no-sector branch). -/
structure SelectionCriteria (α : Type) where
  sector_weight : α
  size_weight : α
  quality_weight : α
  min_composite : α
  target_sector : Option String
  target_revenue : α

/-- Model of `backend/models/valuations.py` — `CompsResult`. -/
structure CompsResult (α : Type) where
  method : String := "comps"
  enterprise_value : α
  ev_to_revenue_median : α
  ev_to_revenue_mean : α
  ev_to_ebitda_median : Option α := none
  ev_to_ebitda_mean : Option α := none
  comparable_count : ℕ
  comparables_used : List String := []
  warnings : List String := []
  comp_selection_scores : List (CompSelectionScore α) := []
  selection_criteria : Option (SelectionCriteria α) := none

/-- Model of `backend/models/valuations.py` — `LastRoundResult`. -/
structure LastRoundResult (α : Type) where
  method : String := "last_round"
  enterprise_value : α
  last_round_valuation : α
  index_return : Option α := none
  adjustment_factor : α
  months_since_round : Option ℤ := none
  warnings : List String := []

/-- Model of `backend/models/valuations.py` — `MethodologyWeight`. -/
structure MethodologyWeight (α : Type) where
  method : String
  weight : α
  rationale : String

/-- Model of `backend/models/valuations.py` — `BlendedValuation`. -/
structure BlendedValuation (α : Type) where
  fair_value : α
  fair_value_range : List α
  methodology_weights : List (MethodologyWeight α)
  comps_result : Option (CompsResult α) := none
  dcf_result : Option (DCFResult α) := none
  last_round_result : Option (LastRoundResult α) := none

/-- Model of `any("model-estimated" in w for w in warnings)`
(`blender.py` lines 96 and 110). -/
def model_estimated (warnings : List String) : Bool :=
  warnings.any fun w => str_contains w "model-estimated"

/-- Model of `blender.py` lines 14-23: the `results` dict of methods with a
positive enterprise value, in insertion order. -/
def blend_results (comps : Option (CompsResult α)) (dcf : Option (DCFResult α))
    (last_round : Option (LastRoundResult α)) : List (String × α) :=
  (match comps with
   | some c => if 0 < c.enterprise_value then [("comps", c.enterprise_value)] else []
   | none => []) ++
  (match dcf with
   | some d => if 0 < d.enterprise_value then [("dcf", d.enterprise_value)] else []
   | none => []) ++
  (match last_round with
   | some l => if 0 < l.enterprise_value then [("last_round", l.enterprise_value)] else []
   | none => [])

/-- Model of `blender.py` lines 71-129 — `_default_weights`. -/
def default_weights (comps : Option (CompsResult α)) (dcf : Option (DCFResult α))
    (last_round : Option (LastRoundResult α)) (results : List (String × α)) :
    List (String × α) × List (String × String) :=
  let comps_part : List (String × α) × List (String × String) :=
    if (results.lookup "comps").isSome then
      let count := match comps with | some c => c.comparable_count | none => 0
      if 3 ≤ count then
        ([("comps", 4/10)],
         [("comps", "Weight 0.40: comparable_count (" ++ toString count ++
            ") >= 3 threshold, strong market signal")])
      else
        ([("comps", 25/100)],
         [("comps", "Weight 0.25: comparable_count (" ++ toString count ++
            ") < 3 threshold, limited market data")])
    else ([], [])
  let dcf_part : List (String × α) × List (String × String) :=
    if (results.lookup "dcf").isSome then
      let n_years := match dcf with | some d => d.projected_fcfs.length | none => 0
      let dcf_is_estimated := match dcf with | some d => model_estimated d.warnings | none => false
      if dcf_is_estimated then
        ([("dcf", 15/100)],
         [("dcf", "Weight 0.15: DCF with " ++ toString n_years ++
            "-year projections, model-estimated inputs — significantly reduced weight")])
      else
        ([("dcf", 35/100)],
         [("dcf", "Weight 0.35: DCF with " ++ toString n_years ++
            "-year projections, intrinsic value anchor")])
    else ([], [])
  let last_part : List (String × α) × List (String × String) :=
    if (results.lookup "last_round").isSome then
      let months : Option ℤ := match last_round with
        | some l => l.months_since_round
        | none => none
      let lr_is_estimated := match last_round with
        | some l => model_estimated l.warnings
        | none => false
      let stale := match months with | some m => decide (18 < m) | none => false
      if lr_is_estimated then
        ([("last_round", 10/100)],
         [("last_round", "Weight 0.10: last round data is model-estimated, significantly reduced weight")])
      else if stale then
        ([("last_round", 15/100)],
         [("last_round", "Weight 0.15: last round mo ago > 18mo staleness threshold, reduced weight")])
      else
        ([("last_round", 25/100)],
         [("last_round", "Weight 0.25: last round within 18mo freshness window")])
    else ([], [])
  (comps_part.1 ++ dcf_part.1 ++ last_part.1, comps_part.2 ++ dcf_part.2 ++ last_part.2)

/-- Model of `blender.py` lines 35-40: the weight/rationale dicts before
normalization: caller-supplied weights (a non-empty dict) are filtered to the
contributing methods, otherwise the heuristic defaults apply. -/
def pre_normal_weights (comps : Option (CompsResult α)) (dcf : Option (DCFResult α))
    (last_round : Option (LastRoundResult α)) (custom_weights : Option (List (String × α))) :
    List (String × α) × List (String × String) :=
  let results := blend_results comps dcf last_round
  match custom_weights with
  | some cw =>
    if cw ≠ [] then
      let w := cw.filter fun kv => (results.lookup kv.1).isSome
      (w, w.map fun kv => (kv.1, "Custom weight"))
    else default_weights comps dcf last_round results
  | none => default_weights comps dcf last_round results

/-- Model of `blender.py` lines 42-45: the `weights` dict after normalization
(normalization is skipped when the total is not positive). -/
def blend_weights (comps : Option (CompsResult α)) (dcf : Option (DCFResult α))
    (last_round : Option (LastRoundResult α))
    (custom_weights : Option (List (String × α))) : List (String × α) :=
  let wr := pre_normal_weights comps dcf last_round custom_weights
  let total_weight := (wr.1.map Prod.snd).sum
  if 0 < total_weight then wr.1.map (fun kv => (kv.1, kv.2 / total_weight)) else wr.1

/-- Model of `blender.py` line 48: `fair_value = sum(results[m] * weights[m])`. -/
def blend_fair_value (comps : Option (CompsResult α)) (dcf : Option (DCFResult α))
    (last_round : Option (LastRoundResult α))
    (custom_weights : Option (List (String × α))) : α :=
  ((blend_weights comps dcf last_round custom_weights).map fun kv =>
    ((blend_results comps dcf last_round).lookup kv.1).getD 0 * kv.2).sum

/-- Model of `blender.py` lines 50-53: the fair-value range percentage. -/
def blend_range_pct (comps : Option (CompsResult α)) : α :=
  if (match comps with | some c => decide (5 ≤ c.comparable_count) | none => false) then
    15/100
  else 20/100

/-- Model of `blender.py` lines 7-68 — `compute_blended_valuation`. -/
def compute_blended_valuation (comps : Option (CompsResult α)) (dcf : Option (DCFResult α))
    (last_round : Option (LastRoundResult α))
    (custom_weights : Option (List (String × α)) := none) : BlendedValuation α :=
  if blend_results comps dcf last_round = [] then
    { fair_value := 0, fair_value_range := [0, 0], methodology_weights := [],
      comps_result := comps, dcf_result := dcf, last_round_result := last_round }
  else
    { fair_value := blend_fair_value comps dcf last_round custom_weights,
      fair_value_range :=
        [blend_fair_value comps dcf last_round custom_weights * (1 - blend_range_pct comps),
         blend_fair_value comps dcf last_round custom_weights * (1 + blend_range_pct comps)],
      methodology_weights := (blend_weights comps dcf last_round custom_weights).map fun kv =>
        MethodologyWeight.mk kv.1 kv.2
          (((pre_normal_weights comps dcf last_round custom_weights).2.lookup kv.1).getD ""),
      comps_result := comps, dcf_result := dcf, last_round_result := last_round }

end Blender

section MarketModels

variable {α : Type} [LinearOrderedField α]

/-- Model of `backend/models/market_data.py` — `CompanyFinancials`
(`fetched_at` kept as an opaque string). -/
structure CompanyFinancials (α : Type) where
  ticker : String
  name : Option String := none
  market_cap : Option α := none
  enterprise_value : Option α := none
  revenue : Option α := none
  ebitda : Option α := none
  ev_to_revenue : Option α := none
  ev_to_ebitda : Option α := none
  sector : Option String := none
  data_source_url : Option String := none
  fetched_at : Option String := none
  data_source : Option String := none

/-- Model of `backend/models/market_data.py` — `IndexData`. -/
structure IndexData (α : Type) where
  ticker : String
  price_at_round : Option α := none
  price_current : Option α := none
  return_since_round : Option α := none

/-- Model of `backend/models/market_data.py` — `MarketData`. -/
structure MarketData (α : Type) where
  comparables : List (CompanyFinancials α) := []
  index_data : Option (IndexData α) := none

end MarketModels

section LastRound

variable {α : Type} [LinearOrderedField α]

/-- Model of `backend/valuation/last_round.py` — `compute_last_round_valuation`.
The `strptime` + `datetime.now()` month computation is abstracted as the
parameter `months_since_of` (see the file header). -/
def compute_last_round_valuation (last_valuation : α) (last_round_date : String)
    (index_data : Option (IndexData α)) (months_since_of : String → Option ℤ) :
    LastRoundResult α :=
  let months_since := months_since_of last_round_date
  let parse_warnings := match months_since with
    | none => ["Could not parse round date: " ++ last_round_date]
    | some _ => []
  let stale_warnings := match months_since with
    | some m =>
      if 18 < m then ["Last round was " ++ toString m ++ " months ago — valuation may be stale"]
      else []
    | none => []
  let index_return : Option α := match index_data with
    | some d => d.return_since_round
    | none => none
  let adjustment_factor : α := match index_return with
    | some r => 1 + r
    | none => 1
  let index_warnings := match index_return with
    | some _ => []
    | none => ["No index data available — using unadjusted last-round valuation"]
  { enterprise_value := last_valuation * adjustment_factor,
    last_round_valuation := last_valuation,
    index_return := index_return,
    adjustment_factor := adjustment_factor,
    months_since_round := months_since,
    warnings := parse_warnings ++ stale_warnings ++ index_warnings }

end LastRound

section Comps

/-- Model of `comps.py` lines 7-12: sector groupings. -/
def sector_groups : List (List String) :=
  [["Technology", "Information Technology", "Software", "SaaS"],
   ["Consumer Cyclical", "Consumer Defensive", "Retail"],
   ["Healthcare", "Biotechnology", "Pharmaceuticals"],
   ["Financial Services", "Fintech", "Insurance"]]

/-- Python string truthiness: `not s` is true for `None` and `""`. -/
def str_falsy (s : Option String) : Bool :=
  match s with
  | none => true
  | some v => v == ""

variable {α : Type} [LinearOrderedField α]

/-- Model of `comps.py` lines 15-25 — `_sectors_related`. -/
def sectors_related (sector_a sector_b : Option String) : α :=
  if str_falsy sector_a || str_falsy sector_b then 1/2
  else
    let a := (sector_a.getD "").toLower
    let b := (sector_b.getD "").toLower
    if a == b then 1
    else if sector_groups.any fun group =>
        (group.map String.toLower).contains a && (group.map String.toLower).contains b then
      1/2
    else 0

/-- Model of `comps.py` lines 39-46 — `_data_quality_score`. -/
def data_quality_score (comp : CompanyFinancials α) : α :=
  match comp.ev_to_revenue with
  | none => 0
  | some v =>
    if v ≤ 0 then 0
    else
      let fields := [comp.market_cap.isSome, comp.enterprise_value.isSome, comp.revenue.isSome,
        comp.ebitda.isSome, comp.ev_to_revenue.isSome, comp.ev_to_ebitda.isSome]
      ((fields.filter id).length : α) / (fields.length : α)

/-- Model of `comps.py` lines 28-36 — `_size_proximity_score` (`math.log10` is
`Real.logb 10`, hence this function lives at `ℝ`). -/
noncomputable def size_proximity_score (comp_revenue : Option ℝ) (target_revenue : ℝ) : ℝ :=
  match comp_revenue with
  | none => 0
  | some r =>
    if r ≤ 0 ∨ target_revenue ≤ 0 then 0
    else
      let ratio := r / target_revenue
      if ratio < 1/10 ∨ 10 < ratio then 0
      else py_max 0 (1 - |Real.logb 10 ratio|)

/-- Model of the per-comparable `sz_score` of `comps.py` line 67 (a neutral
`0.5` is substituted when the target revenue is not positive). -/
noncomputable def comp_size_score (target_revenue : ℝ) (comp : CompanyFinancials ℝ) : ℝ :=
  if 0 < target_revenue then size_proximity_score comp.revenue target_revenue else 1/2

/-- Model of the loop body of `comps.py` lines 65-97: the selection record of
one comparable. -/
noncomputable def comp_record (target_sector : Option String) (target_revenue : ℝ)
    (sector_weight size_weight quality_weight min_composite : ℝ)
    (comp : CompanyFinancials ℝ) : CompSelectionScore ℝ :=
  let s_score : ℝ := sectors_related target_sector comp.sector
  let sz_score := comp_size_score target_revenue comp
  let dq_score : ℝ := data_quality_score comp
  let composite := s_score * sector_weight + sz_score * size_weight + dq_score * quality_weight
  let excl : Option String :=
    if dq_score = 0 then some "Missing EV/Revenue data"
    else if sz_score = 0 ∧ 0 < target_revenue then some "Revenue outside 0.1x-10x range of target"
    else if composite < min_composite then some "Composite score below threshold"
    else none
  { ticker := comp.ticker, name := comp.name, included := excl.isNone,
    sector_score := py_round s_score 2, size_proximity_score := py_round sz_score 2,
    data_quality_score := py_round dq_score 2, composite_score := py_round composite 2,
    exclusion_reason := excl }

/-- Model of `comps.py` lines 49-99 — `score_and_filter_comps`: the loop keeps
a comparable iff its record has no exclusion reason, and emits one record per
comparable, in order. -/
noncomputable def score_and_filter_comps (comparables : List (CompanyFinancials ℝ))
    (target_revenue : ℝ) (target_sector : Option String := none)
    (sector_weight : ℝ := 3/10) (size_weight : ℝ := 4/10) (quality_weight : ℝ := 3/10)
    (min_composite : ℝ := 3/10) :
    List (CompanyFinancials ℝ) × List (CompSelectionScore ℝ) :=
  (comparables.filter fun comp =>
      (comp_record target_sector target_revenue sector_weight size_weight quality_weight
        min_composite comp).included,
   comparables.map fun comp =>
      comp_record target_sector target_revenue sector_weight size_weight quality_weight
        min_composite comp)

/-- Insertion into a sorted list (models Python `sorted`). -/
def insert_sorted (x : α) : List α → List α
  | [] => [x]
  | y :: ys => if x ≤ y then x :: y :: ys else y :: insert_sorted x ys

/-- Sorting a list ascending (models Python `sorted`). -/
def sorted_asc : List α → List α :=
  List.foldr insert_sorted []

/-- Model of `statistics.median` (callers only apply it to non-empty lists). -/
def py_median (l : List α) : α :=
  let s := sorted_asc l
  if l.length % 2 = 1 then s.getD (l.length / 2) 0
  else (s.getD (l.length / 2 - 1) 0 + s.getD (l.length / 2) 0) / 2

/-- Model of `statistics.mean` (callers only apply it to non-empty lists). -/
def py_mean (l : List α) : α :=
  l.sum / (l.length : α)

/-- Model of `comps.py` lines 102-174 — `compute_comps_valuation`. -/
noncomputable def compute_comps_valuation (target_revenue : ℝ) (target_ebitda : Option ℝ)
    (comparables : List (CompanyFinancials ℝ)) (target_sector : Option String := none) :
    CompsResult ℝ :=
  let scored : List (CompanyFinancials ℝ) × List (CompSelectionScore ℝ) ×
      Option (SelectionCriteria ℝ) :=
    match target_sector with
    | some _ =>
      let fs := score_and_filter_comps comparables target_revenue target_sector
      (fs.1, fs.2, some (SelectionCriteria.mk (3/10) (4/10) (3/10) (3/10) target_sector
        target_revenue))
    | none => (comparables, [], none)
  let filtered := scored.1
  let selection_scores := scored.2.1
  let selection_criteria := scored.2.2
  let valid := filtered.filter fun c =>
    match c.ev_to_revenue with
    | some v => decide (0 < v)
    | none => false
  let warnings : List String :=
    if valid.length < 2 then
      ["Only " ++ toString valid.length ++ " valid comparable(s) with EV/Revenue data"]
    else []
  if valid.isEmpty then
    { enterprise_value := 0, ev_to_revenue_median := 0, ev_to_revenue_mean := 0,
      comparable_count := 0, comparables_used := [],
      warnings := warnings ++ ["No valid comparables available"],
      comp_selection_scores := selection_scores, selection_criteria := selection_criteria }
  else
    let ev_rev_values := valid.map fun c => c.ev_to_revenue.getD 0
    let ev_rev_median := py_median ev_rev_values
    let ev_rev_mean := py_mean ev_rev_values
    let enterprise_value := target_revenue * ev_rev_median
    let ebitda_valid := filtered.filter fun c =>
      match c.ev_to_ebitda with
      | some v => decide (0 < v)
      | none => false
    let ebitda_values := ebitda_valid.map fun c => c.ev_to_ebitda.getD 0
    { enterprise_value := enterprise_value,
      ev_to_revenue_median := ev_rev_median, ev_to_revenue_mean := ev_rev_mean,
      ev_to_ebitda_median := if ebitda_valid.isEmpty then none else some (py_median ebitda_values),
      ev_to_ebitda_mean := if ebitda_valid.isEmpty then none else some (py_mean ebitda_values),
      comparable_count := valid.length,
      comparables_used := valid.map fun c => c.ticker,
      warnings := warnings,
      comp_selection_scores := selection_scores, selection_criteria := selection_criteria }

end Comps

section RequestModels

variable {α : Type} [LinearOrderedField α]

/-- Model of `backend/models/request.py` — `ValuationRequest`. -/
structure ValuationRequest (α : Type) where
  company_name : String
  description : Option String := none
  sector : Option String := none
  revenue : Option α := none
  ebitda : Option α := none
  comparable_tickers : Option (List String) := none
  financial_projections : Option (FinancialProjections α) := none
  last_round_valuation : Option α := none
  last_round_date : Option String := none
  index_ticker : Option String := some "^IXIC"

/-- Model of `backend/models/enriched.py` — `EstimatedFinancials`. -/
structure EstimatedFinancials (α : Type) where
  estimated_revenue : Option α := none
  estimated_ebitda : Option α := none
  revenue_source : Option String := none
  confidence : Option String := none
  reasoning : Option String := none

/-- Model of `backend/models/enriched.py` — `EstimatedProjections`. -/
structure EstimatedProjections (α : Type) where
  estimated_growth_rates : List α := []
  estimated_ebitda_margins : List α := []
  estimated_wacc : α
  estimated_terminal_growth_rate : α
  source : String := ""
  confidence : String := "low"
  reasoning : String := ""

/-- Model of `backend/models/enriched.py` — `EstimatedLastRound`. -/
structure EstimatedLastRound (α : Type) where
  estimated_valuation : α
  estimated_date : String := ""
  source : String := ""
  confidence : String := "low"
  reasoning : String := ""

/-- Model of one entry of `research_sources` (a `dict` with optional
`title` / `url` keys). -/
structure SourceRef where
  title : Option String := none
  url : Option String := none

/-- Model of `backend/models/enriched.py` — `EnrichedInput`. -/
structure EnrichedInput (α : Type) where
  sector : String
  sub_sector : Option String := none
  comparable_tickers : List String := []
  applicable_methods : List String := []
  estimated_financials : Option (EstimatedFinancials α) := none
  estimated_projections : Option (EstimatedProjections α) := none
  estimated_last_round : Option (EstimatedLastRound α) := none
  research_sources : List SourceRef := []
  enrichment_notes : Option String := none

end RequestModels

section StepValuate

/-- Model of `step_valuate.py` lines 14-19 — `InsufficientDataError`. -/
structure InsufficientDataError where
  message : String
  missing_fields : List String

variable {α : Type} [LinearOrderedField α]

/-- Model of `step_valuate.py` lines 130-135: the `source_links` string used
inside warnings (interpolated per-source titles and urls). -/
def source_links_of (sources : List SourceRef) : String :=
  if sources.isEmpty then ""
  else " Sources: " ++ String.intercalate ", "
    ((sources.take 5).map fun s => s.title.getD "Link" ++ " (" ++ s.url.getD "" ++ ")")

/-- Model of `step_valuate.py` lines 21-45 — `_build_estimated_projections`. -/
def build_estimated_projections (base_revenue : α) (estimated : EstimatedProjections α) :
    FinancialProjections α :=
  let revenue_projections :=
    (estimated.estimated_growth_rates.foldl
      (fun acc rate => (acc.1 * (1 + rate), acc.2 ++ [acc.1 * (1 + rate)]))
      (base_revenue, [])).2
  let margins := estimated.estimated_ebitda_margins
  let padded :=
    margins ++ List.replicate (revenue_projections.length - margins.length)
      (margins.getLastD (20/100))
  { revenue_projections := revenue_projections,
    ebitda_margins := padded.take revenue_projections.length,
    capex_percent := 5/100, nwc_change_percent := 2/100, tax_rate := 25/100,
    wacc := estimated.estimated_wacc,
    terminal_growth_rate := estimated.estimated_terminal_growth_rate,
    depreciation_percent := 0 }

/-- Model of `step_valuate.py` lines 126-142: the resolved target revenue
(user-provided first, then a positive LLM estimate). -/
def resolved_revenue (request : ValuationRequest α) (enriched : EnrichedInput α) : Option α :=
  match request.revenue with
  | some r => some r
  | none =>
    match enriched.estimated_financials with
    | some ef =>
      match ef.estimated_revenue with
      | some er => if 0 < er then some er else none
      | none => none
    | none => none

/-- Model of `step_valuate.py`: whether the resolved revenue came from the
LLM estimate (drives the `revenue_source` string). -/
def revenue_is_estimated (request : ValuationRequest α) (enriched : EnrichedInput α) : Bool :=
  match request.revenue with
  | some _ => false
  | none =>
    match enriched.estimated_financials with
    | some ef =>
      match ef.estimated_revenue with
      | some er => decide (0 < er)
      | none => false
    | none => false

/-- Model of `step_valuate.py` lines 127-145: the resolved EBITDA. -/
def resolved_ebitda (request : ValuationRequest α) (enriched : EnrichedInput α) : Option α :=
  match request.revenue, enriched.estimated_financials with
  | none, some ef =>
    if request.ebitda = none ∧ option_truthy ef.estimated_ebitda then ef.estimated_ebitda
    else request.ebitda
  | _, _ => request.ebitda

/-- Model of `step_valuate.py` line 141: the `revenue_source` string. -/
def revenue_source_str (request : ValuationRequest α) (enriched : EnrichedInput α) : String :=
  if revenue_is_estimated request enriched then
    "LLM estimate (" ++
      ((enriched.estimated_financials.map fun ef => ef.confidence.getD "unknown").getD "unknown")
      ++ " confidence)"
  else "user-provided"

/-- Model of `step_valuate.py` lines 147-160: resolved last-round valuation,
date and estimation flag. -/
def resolved_last_round (request : ValuationRequest α) (enriched : EnrichedInput α) :
    Option α × Option String × Bool :=
  if (request.last_round_valuation = none ∨ request.last_round_date = none) then
    match enriched.estimated_last_round with
    | some elr =>
      if 0 < elr.estimated_valuation ∧ elr.estimated_date ≠ "" then
        (some elr.estimated_valuation, some elr.estimated_date, true)
      else (request.last_round_valuation, request.last_round_date, false)
    | none => (request.last_round_valuation, request.last_round_date, false)
  else (request.last_round_valuation, request.last_round_date, false)

/-- Model of `step_valuate.py` lines 162-174: resolved DCF projections and
estimation flag. -/
def resolved_projections (request : ValuationRequest α) (enriched : EnrichedInput α)
    (revenue : Option α) : Option (FinancialProjections α) × Bool :=
  match request.financial_projections with
  | some fp => (some fp, false)
  | none =>
    match enriched.estimated_projections with
    | some ep =>
      if option_truthy revenue ∧ ep.estimated_growth_rates ≠ [] then
        (some (build_estimated_projections (revenue.getD 0) ep), true)
      else (none, false)
    | none => (none, false)

/-- Model of `step_valuate.py` line 177 — `can_run_comps`. -/
def can_run_comps (enriched : EnrichedInput α) (revenue : Option α) (market : MarketData α) :
    Bool :=
  decide ("comps" ∈ enriched.applicable_methods) && option_truthy revenue &&
    decide (0 < market.comparables.length)

/-- Model of `step_valuate.py` line 178 — `can_run_dcf`. -/
def can_run_dcf (enriched : EnrichedInput α) (projections : Option (FinancialProjections α)) :
    Bool :=
  decide ("dcf" ∈ enriched.applicable_methods) && projections.isSome

/-- Model of `step_valuate.py` lines 179-184 — `can_run_last_round`. -/
def can_run_last_round (enriched : EnrichedInput α) (last_round_valuation : Option α)
    (last_round_date : Option String) : Bool :=
  decide ("last_round" ∈ enriched.applicable_methods) &&
    (match last_round_valuation with
     | some v => decide (0 < v)
     | none => false) &&
    last_round_date.isSome

/-- Model of `step_valuate.py` lines 265-293 — `_identify_missing`. -/
def identify_missing (request : ValuationRequest α) (enriched : EnrichedInput α)
    (resolved_rev : Option α) (market : MarketData α) : List String :=
  let llm_failed := match enriched.enrichment_notes with
    | some n => n ≠ "" && str_contains n "Fallback"
    | none => false
  (if !(option_truthy resolved_rev) then
    if llm_failed then
      ["Revenue: No annual revenue provided. Web research could not run because " ++
       "the LLM service is unavailable (check your OPENAI_API_KEY in backend/.env). " ++
       "Please enter the company's annual revenue manually."]
    else
      ["Revenue: No annual revenue provided, and web research could not determine it. " ++
       "Please enter the company's annual revenue."]
  else []) ++
  (if option_truthy resolved_rev && decide (market.comparables.length = 0) then
    ["Comparable companies: Revenue is available but no comparable company data could be " ++
     "fetched. Try providing ticker symbols of similar public companies."]
  else [])

/-- Model of `step_valuate.py` lines 186-200: the message of the first
`InsufficientDataError` raise site. -/
def no_method_message (request : ValuationRequest α) (missing : List String) : String :=
  "Unable to perform valuation for " ++ request.company_name ++
  ". Comparable Company Analysis could not run.\n\nWhat went wrong:\n" ++
  String.join (missing.map fun f => "  - " ++ f ++ "\n") ++
  "\nTo run a valuation, please provide at least:\n  - Annual Revenue (for Comparable Company Analysis)"

end StepValuate

section StepValuateRun

variable {α : Type} [LinearOrderedField α] [FloorRing α]

/-- Model of `step_valuate.py` lines 85-89: growth rates implied by
consecutive user revenue projections (skipping non-positive bases). -/
def implied_growth_rates (revs : List α) : List α :=
  (revs.zip revs.tail).filterMap fun p =>
    if 0 < p.1 then some (p.2 / p.1 - 1) else none

/-- Model of `step_valuate.py` lines 48-112 — `_check_mismatches`
(functional version: returns the two results with mismatch warnings
appended; string interpolations elided). -/
def check_mismatches (request : ValuationRequest α) (enriched : EnrichedInput α)
    (dcf_result : Option (DCFResult α)) (last_round_result : Option (LastRoundResult α))
    (source_links : String) : Option (DCFResult α) × Option (LastRoundResult α) :=
  let dcf_out : Option (DCFResult α) :=
    match request.financial_projections, enriched.estimated_projections, dcf_result with
    | some fp, some ep, some d =>
      if ep.estimated_growth_rates ≠ [] then
        let wacc_warn :=
          if 2/100 ≤ |fp.wacc - ep.estimated_wacc| then
            ["WACC mismatch: user provided vs research estimate." ++ source_links]
          else []
        let tgr_warn :=
          if 1/100 ≤ |fp.terminal_growth_rate - ep.estimated_terminal_growth_rate| then
            ["Terminal growth rate mismatch: user provided vs research estimate." ++ source_links]
          else []
        let growth_warn :=
          if fp.revenue_projections ≠ [] ∧ 2 ≤ fp.revenue_projections.length then
            let user_growth := implied_growth_rates fp.revenue_projections
            if user_growth ≠ [] then
              let avg_user := py_mean user_growth
              let avg_est := py_mean ep.estimated_growth_rates
              if avg_est ≠ 0 ∧ 20/100 < |avg_user - avg_est| / |avg_est| then
                ["Growth rate mismatch: user implied avg vs research estimate avg." ++ source_links]
              else []
            else []
          else []
        some { d with warnings := d.warnings ++ wacc_warn ++ tgr_warn ++ growth_warn }
      else dcf_result
    | _, _, _ => dcf_result
  let lr_out : Option (LastRoundResult α) :=
    match request.last_round_valuation, enriched.estimated_last_round, last_round_result with
    | some uv, some elr, some l =>
      if 0 < elr.estimated_valuation then
        if 30/100 < |uv - elr.estimated_valuation| / elr.estimated_valuation then
          some { l with warnings := l.warnings ++
            ["Last round valuation mismatch: user provided vs research estimate." ++ source_links] }
        else last_round_result
      else last_round_result
    | _, _, _ => last_round_result
  (dcf_out, lr_out)

/-- Model of `step_valuate.py` lines 202-214: the comps method result
(with the revenue-source warning appended for estimated revenue). -/
noncomputable def comps_result_of (request : ValuationRequest ℝ) (enriched : EnrichedInput ℝ)
    (market : MarketData ℝ) : Option (CompsResult ℝ) :=
  if can_run_comps enriched (resolved_revenue request enriched) market then
    let base := compute_comps_valuation ((resolved_revenue request enriched).getD 0)
      (resolved_ebitda request enriched) market.comparables (some enriched.sector)
    let src := revenue_source_str request enriched
    some (if src ≠ "user-provided" then
      { base with warnings := base.warnings ++
          ["Revenue source: " ++ src ++ "." ++ source_links_of enriched.research_sources] }
    else base)
  else none

/-- Model of `step_valuate.py` lines 220-225: the model-estimated DCF warning. -/
def dcf_estimated_warning (enriched : EnrichedInput α) : String :=
  "DCF inputs are model-estimated (" ++
    ((enriched.estimated_projections.map fun ep => ep.confidence).getD "") ++
    " confidence). Growth rates, margins, WACC, and TGR were inferred from web research. " ++
    "Source: " ++ ((enriched.estimated_projections.map fun ep => ep.source).getD "") ++ "." ++
    source_links_of enriched.research_sources

/-- Model of `step_valuate.py` lines 216-228: the DCF method result; an
exception inside `compute_dcf_valuation` is caught and yields `none`. -/
def dcf_result_of (request : ValuationRequest α) (enriched : EnrichedInput α) :
    Option (DCFResult α) :=
  let rp := resolved_projections request enriched (resolved_revenue request enriched)
  if can_run_dcf enriched rp.1 then
    match rp.1 with
    | some proj =>
      match compute_dcf_valuation proj with
      | .ok r =>
        some (if rp.2 then { r with warnings := r.warnings ++ [dcf_estimated_warning enriched] }
          else r)
      | .error _ => none
    | none => none
  else none

/-- Model of `step_valuate.py` lines 238-242: the model-estimated last-round warning. -/
def lr_estimated_warning (enriched : EnrichedInput α) : String :=
  "Last round data is model-estimated (" ++
    ((enriched.estimated_last_round.map fun elr => elr.confidence).getD "") ++
    " confidence). Source: " ++
    ((enriched.estimated_last_round.map fun elr => elr.source).getD "") ++ "." ++
    source_links_of enriched.research_sources

/-- Model of `step_valuate.py` lines 230-245: the last-round method result. -/
def last_round_result_of (months_since_of : String → Option ℤ) (request : ValuationRequest α)
    (enriched : EnrichedInput α) (market : MarketData α) : Option (LastRoundResult α) :=
  let rlr := resolved_last_round request enriched
  if can_run_last_round enriched rlr.1 rlr.2.1 then
    let base := compute_last_round_valuation (rlr.1.getD 0) ((rlr.2.1).getD "")
      market.index_data months_since_of
    some (if rlr.2.2 then
        { base with warnings := base.warnings ++ [lr_estimated_warning enriched] }
      else base)
  else none

/-- Model of `step_valuate.py` lines 247-250: the blended valuation built from
the three method results after mismatch checks. -/
noncomputable def blended_of (months_since_of : String → Option ℤ)
    (request : ValuationRequest ℝ) (enriched : EnrichedInput ℝ) (market : MarketData ℝ) :
    BlendedValuation ℝ :=
  let comps := comps_result_of request enriched market
  let mm := check_mismatches request enriched (dcf_result_of request enriched)
    (last_round_result_of months_since_of request enriched market)
    (source_links_of enriched.research_sources)
  compute_blended_valuation comps mm.1 mm.2 none

/-- Model of `step_valuate.py` lines 252-260: the message of the second
`InsufficientDataError` raise site. -/
def all_zero_message (request : ValuationRequest α) : String :=
  "All valuation methods produced $0 for " ++ request.company_name ++
  ". This typically means the input data was insufficient or invalid. " ++
  "Please verify the provided financials and try again."

/-- Model of `step_valuate.py` lines 115-262 — `run_valuations`. -/
noncomputable def run_valuations (months_since_of : String → Option ℤ)
    (request : ValuationRequest ℝ) (enriched : EnrichedInput ℝ) (market : MarketData ℝ) :
    Except InsufficientDataError (BlendedValuation ℝ) :=
  let revenue := resolved_revenue request enriched
  let rlr := resolved_last_round request enriched
  let rp := resolved_projections request enriched revenue
  if !(can_run_comps enriched revenue market || can_run_dcf enriched rp.1 ||
       can_run_last_round enriched rlr.1 rlr.2.1) then
    .error (InsufficientDataError.mk
      (no_method_message request (identify_missing request enriched revenue market))
      (identify_missing request enriched revenue market))
  else
    let blended := blended_of months_since_of request enriched market
    if blended.fair_value = 0 then
      .error (InsufficientDataError.mk (all_zero_message request)
        (identify_missing request enriched revenue market))
    else .ok blended

end StepValuateRun

section PipelineStatusModel

/-- Model of `backend/services/pipeline_status.py` — `StepEvent`
(`timestamp` is opaque). -/
structure StepEvent where
  step_name : String
  status : String
  timestamp : String
  duration_ms : Option ℚ := none
  error : Option String := none

/-- Model of `backend/services/pipeline_status.py` — `PipelineStatus`.
The `asyncio.Event` wake-up machinery is timing-only and not modelled;
`event_index` is the single consumer's cursor (`_event_index`). -/
structure PipelineStatus where
  report_id : String
  events : List StepEvent := []
  complete : Bool := false
  event_index : ℕ := 0

/-- Model of `pipeline_status.py` lines 24-33 — `emit`: appends one event. -/
def PipelineStatus.emit (s : PipelineStatus) (step_name status timestamp : String)
    (duration_ms : Option ℚ := none) (error : Option String := none) : PipelineStatus :=
  { s with events := s.events ++ [StepEvent.mk step_name status timestamp duration_ms error] }

/-- Model of `pipeline_status.py` lines 35-37 — `mark_complete`. -/
def PipelineStatus.mark_complete (s : PipelineStatus) : PipelineStatus :=
  { s with complete := true }

/-- Model of `pipeline_status.py` lines 39-53 — `wait_for_event`, taken
atomically at its return point: both the fast path (pending events) and the
timeout path return `events[_event_index:]` and advance the cursor to
`len(events)`.  Returns the new state and the returned events. -/
def PipelineStatus.wait_for_event (s : PipelineStatus) : PipelineStatus × List StepEvent :=
  ({ s with event_index := s.events.length }, s.events.drop s.event_index)

/-- One observable call on a `PipelineStatus` (the emitted event carries its
timestamp, see `emit`). -/
inductive StatusAction where
  | emit (e : StepEvent)
  | markComplete
  | wait

/-- Running a sequence of calls against a `PipelineStatus`, collecting the
list returned by each `wait_for_event` call. -/
def run_status : PipelineStatus → List StatusAction → PipelineStatus × List (List StepEvent)
  | s, [] => (s, [])
  | s, StatusAction.emit e :: rest =>
    run_status (s.emit e.step_name e.status e.timestamp e.duration_ms e.error) rest
  | s, StatusAction.markComplete :: rest => run_status s.mark_complete rest
  | s, StatusAction.wait :: rest =>
    let r := s.wait_for_event
    let out := run_status r.1 rest
    (out.1, r.2 :: out.2)

end PipelineStatusModel

section DCFLemmas

variable {α : Type} [LinearOrderedField α] [FloorRing α]

/-- The padded margin for year `i` (the value `ebitda_margin_at` returns on a
non-empty margins list). -/
def margin_pure (margins : List α) (i : ℕ) : α :=
  if i < margins.length then margins.getD i 0 else margins.getLastD 0

theorem ebitda_margin_at_ok (margins : List α) (hm : margins ≠ []) (i : ℕ) :
    ebitda_margin_at margins i = .ok (margin_pure margins i) := by
  unfold ebitda_margin_at margin_pure
  by_cases h : i < margins.length
  · simp [h]
  · cases hgl : margins.getLast? with
    | none => exact absurd (List.getLast?_eq_none_iff.mp hgl) hm
    | some m => simp [h, hgl, List.getLastD_eq_getLast?]

/-- The pure list of free cash flows from year index `k` on (what `fcf_list_from`
returns on a non-empty margins list). -/
def fcf_pure_from (margins : List α) (capex nwc tax dep : α) : ℕ → List α → List α
  | _, [] => []
  | k, rev :: rest =>
    fcf_of rev (margin_pure margins k) capex nwc tax dep ::
      fcf_pure_from margins capex nwc tax dep (k + 1) rest

theorem fcf_list_from_ok (margins : List α) (capex nwc tax dep : α) (hm : margins ≠ []) :
    ∀ (revs : List α) (k : ℕ),
      fcf_list_from margins capex nwc tax dep k revs =
        .ok (fcf_pure_from margins capex nwc tax dep k revs)
  | [], k => rfl
  | rev :: rest, k => by
    rw [fcf_list_from, fcf_pure_from, ebitda_margin_at_ok margins hm k,
      fcf_list_from_ok margins capex nwc tax dep hm rest (k + 1)]
    rfl

theorem fcf_pure_from_length (margins : List α) (capex nwc tax dep : α) :
    ∀ (revs : List α) (k : ℕ),
      (fcf_pure_from margins capex nwc tax dep k revs).length = revs.length
  | [], _ => rfl
  | _ :: rest, k => by
    rw [fcf_pure_from, List.length_cons, List.length_cons,
      fcf_pure_from_length margins capex nwc tax dep rest (k + 1)]

theorem fcf_pure_from_getD (margins : List α) (capex nwc tax dep : α) :
    ∀ (revs : List α) (k i : ℕ), i < revs.length →
      (fcf_pure_from margins capex nwc tax dep k revs).getD i 0 =
        fcf_of (revs.getD i 0) (margin_pure margins (k + i)) capex nwc tax dep
  | [], _, i, h => by simp at h
  | rev :: rest, k, 0, _ => by simp [fcf_pure_from]
  | rev :: rest, k, i + 1, h => by
    have := fcf_pure_from_getD margins capex nwc tax dep rest (k + 1) i
      (by simpa using Nat.lt_of_succ_lt_succ h)
    simpa [fcf_pure_from, Nat.add_assoc, Nat.add_comm 1 i] using this

theorem fcf_list_empty_margins (capex nwc tax dep : α) (rev : α) (rest : List α) :
    fcf_list (rev :: rest) [] capex nwc tax dep = .error .indexError := by
  rw [fcf_list, fcf_list_from, ebitda_margin_at]
  rfl

end DCFLemmas

/-- The per-year free cash flow as the specification words it (C3):
`revenue[i]*margin[i] - max(0, (revenue[i]*margin[i] - revenue[i]*depreciation)*tax)
 - revenue[i]*capex - revenue[i]*nwc`, with the margin padded by repeating the
last margin.  Stated from the spec for comparison with `fcf_list`. -/
def claimed_fcf {α : Type} [LinearOrderedField α] (revs margins : List α)
    (capex nwc tax dep : α) (i : ℕ) : α :=
  let revenue := revs.getD i 0
  let margin := if i < margins.length then margins.getD i 0 else margins.getLastD 0
  revenue * margin - max 0 ((revenue * margin - revenue * dep) * tax) -
    revenue * capex - revenue * nwc

/-- C2: for every `FinancialProjections`, `compute_dcf_valuation` never raises
on its guarded preconditions: when WACC ≤ terminal growth it returns a result
with enterprise value 0, no projected FCFs and a WACC-mentioning warning, and
when WACC > growth but the revenue projection list is empty it returns
enterprise value 0 with the no-projections warning. -/
theorem compute_dcf_valuation_guard_paths {α : Type} [LinearOrderedField α] [FloorRing α]
    (p : FinancialProjections α) :
    (p.wacc ≤ p.terminal_growth_rate →
      ∃ r, compute_dcf_valuation p = .ok r ∧ r.enterprise_value = 0 ∧
        r.projected_fcfs = [] ∧ ∃ w ∈ r.warnings, str_contains w "WACC" = true) ∧
    (p.terminal_growth_rate < p.wacc → p.revenue_projections = [] →
      ∃ r, compute_dcf_valuation p = .ok r ∧ r.enterprise_value = 0 ∧
        r.projected_fcfs = [] ∧ "No revenue projections provided" ∈ r.warnings) := by
  constructor
  · intro h
    refine ⟨⟨"dcf", 0, [], 0, p.wacc, p.terminal_growth_rate, [wacc_guard_warning], []⟩,
      by rw [compute_dcf_valuation, if_pos h], rfl, rfl, ⟨wacc_guard_warning, ?_, ?_⟩⟩
    · simp
    · decide
  · intro h hrev
    refine ⟨⟨"dcf", 0, [], 0, p.wacc, p.terminal_growth_rate,
        ["No revenue projections provided"], []⟩, ?_, rfl, rfl, ?_⟩
    · rw [compute_dcf_valuation, if_neg (not_le.mpr h), if_pos (by rw [hrev]; rfl)]
    · simp

/-- Witness for C2 at the spec's example (WACC = 0.02 ≤ g = 0.03) and at an
empty projection list with WACC = 0.12 > g = 0.03. -/
theorem compute_dcf_valuation_guard_paths_witness :
    (((⟨[1000], [3/10], 1/20, 1/50, 1/4, 2/100, 3/100, 0⟩ : FinancialProjections ℚ).wacc ≤
        (⟨[1000], [3/10], 1/20, 1/50, 1/4, 2/100, 3/100, 0⟩ : FinancialProjections ℚ).terminal_growth_rate) ∧
      (∃ r, compute_dcf_valuation (⟨[1000], [3/10], 1/20, 1/50, 1/4, 2/100, 3/100, 0⟩ :
          FinancialProjections ℚ) = .ok r ∧ r.enterprise_value = 0 ∧ r.projected_fcfs = [] ∧
        ∃ w ∈ r.warnings, str_contains w "WACC" = true)) ∧
    (∃ r, compute_dcf_valuation (⟨[], [], 1/20, 1/50, 1/4, 12/100, 3/100, 0⟩ :
        FinancialProjections ℚ) = .ok r ∧ r.enterprise_value = 0 ∧ r.projected_fcfs = [] ∧
      "No revenue projections provided" ∈ r.warnings) := by
  refine ⟨⟨by norm_num, ?_⟩, ?_⟩
  · exact (compute_dcf_valuation_guard_paths
      (⟨[1000], [3/10], 1/20, 1/50, 1/4, 2/100, 3/100, 0⟩ : FinancialProjections ℚ)).1
      (by norm_num)
  · exact (compute_dcf_valuation_guard_paths
      (⟨[], [], 1/20, 1/50, 1/4, 12/100, 3/100, 0⟩ : FinancialProjections ℚ)).2
      (by norm_num) rfl

/-- C3: for every year of an N-year projection (N ≥ 1, non-empty margins,
WACC > growth), the DCF engine's free cash flow equals the spec's formula
(`claimed_fcf`, with margin padding); the tax subtracted is never negative;
and the concrete example revenue = [1000], margin = 0.30, capex = 5%,
nwc = 2%, tax = 25%, depreciation = 0 yields FCF[0] = 155. -/
theorem dcf_fcf_formula {α : Type} [LinearOrderedField α] [FloorRing α]
    (revs margins : List α) (capex nwc tax dep wacc tgr : α)
    (hm : margins ≠ []) (hn : revs ≠ []) (hw : tgr < wacc) :
    (∃ fcfs, fcf_list revs margins capex nwc tax dep = .ok fcfs ∧
      fcfs.length = revs.length ∧
      ∀ i, i < revs.length → fcfs.getD i 0 = claimed_fcf revs margins capex nwc tax dep i) ∧
    (∀ x : α, 0 ≤ py_max 0 (x * tax)) ∧
    fcf_list ([1000] : List α) [3/10] (1/20) (1/50) (1/4) 0 = .ok [155] := by
  refine ⟨⟨fcf_pure_from margins capex nwc tax dep 0 revs,
      fcf_list_from_ok margins capex nwc tax dep hm revs 0,
      fcf_pure_from_length margins capex nwc tax dep revs 0, ?_⟩, ?_, ?_⟩
  · intro i hi
    rw [fcf_pure_from_getD margins capex nwc tax dep revs 0 i hi, claimed_fcf, fcf_of,
      py_max_eq_max, margin_pure, Nat.zero_add]
  · intro x
    rw [py_max_eq_max]
    exact le_max_left 0 (x * tax)
  · rw [fcf_list, fcf_list_from, ebitda_margin_at]
    norm_num [fcf_list_from, fcf_of, py_max, Bind.bind, Except.bind, Except.map]

/-- Witness for C3 at a one-year projection with 30% margin. -/
theorem dcf_fcf_formula_witness :
    ([(3 : ℚ)/10] ≠ []) ∧ ([(1000 : ℚ)] ≠ []) ∧ ((3 : ℚ)/100 < 12/100) ∧
    ((∃ fcfs, fcf_list [(1000 : ℚ)] [3/10] (1/20) (1/50) (1/4) 0 = .ok fcfs ∧
      fcfs.length = [(1000 : ℚ)].length ∧
      ∀ i, i < [(1000 : ℚ)].length →
        fcfs.getD i 0 = claimed_fcf [(1000 : ℚ)] [3/10] (1/20) (1/50) (1/4) 0 i) ∧
    (∀ x : ℚ, 0 ≤ py_max 0 (x * (1/4))) ∧
    fcf_list ([1000] : List ℚ) [3/10] (1/20) (1/50) (1/4) 0 = .ok [155]) := by
  refine ⟨by simp, by simp, by norm_num, ?_⟩
  exact dcf_fcf_formula [(1000 : ℚ)] [3/10] (1/20) (1/50) (1/4) 0 (12/100) (3/100)
    (by simp) (by simp) (by norm_num)

theorem compute_dcf_empty_margins_error {α : Type} [LinearOrderedField α] [FloorRing α]
    (p : FinancialProjections α) (h1 : p.revenue_projections ≠ [])
    (h2 : p.ebitda_margins = []) (h3 : p.terminal_growth_rate < p.wacc) :
    compute_dcf_valuation p = .error .indexError := by
  rw [compute_dcf_valuation, if_neg (not_le.mpr h3),
    if_neg (by simpa using fun h => h1 (List.length_eq_zero.mp h))]
  cases hrev : p.revenue_projections with
  | nil => exact absurd hrev h1
  | cons rev rest =>
    simp only [compute_ev, hrev, h2, fcf_list_empty_margins, Bind.bind, Except.bind]

/-- C10: a `FinancialProjections` with a non-empty revenue list, an empty
margins list and WACC > growth (a shape the request model accepts) makes
`compute_dcf_valuation` raise an `IndexError` instead of returning a result:
the margin-padding rule reads the last element of the empty margins list. -/
theorem dcf_empty_margins_index_error {α : Type} [LinearOrderedField α] [FloorRing α]
    (p : FinancialProjections α) (h1 : p.revenue_projections ≠ [])
    (h2 : p.ebitda_margins = []) (h3 : p.terminal_growth_rate < p.wacc) :
    compute_dcf_valuation p = .error .indexError :=
  compute_dcf_empty_margins_error p h1 h2 h3

/-- Witness for C10 at revenue = [1000], margins = [], WACC = 0.12 > g = 0.03. -/
theorem dcf_empty_margins_index_error_witness :
    (([(1000 : ℚ)] : List ℚ) ≠ []) ∧ (([] : List ℚ) = []) ∧ ((3 : ℚ)/100 < 12/100) ∧
    compute_dcf_valuation (⟨[1000], [], 1/20, 1/50, 1/4, 12/100, 3/100, 0⟩ :
      FinancialProjections ℚ) = .error .indexError := by
  refine ⟨by simp, rfl, by norm_num, ?_⟩
  exact dcf_empty_margins_index_error
    (⟨[1000], [], 1/20, 1/50, 1/4, 12/100, 3/100, 0⟩ : FinancialProjections ℚ)
    (by simp) rfl (by norm_num)

theorem run_status_invariant : ∀ (acts : List StatusAction) (s : PipelineStatus),
    s.event_index ≤ s.events.length →
    (run_status s acts).1.event_index ≤ (run_status s acts).1.events.length ∧
    s.events.take s.event_index ++ (run_status s acts).2.flatten =
      (run_status s acts).1.events.take (run_status s acts).1.event_index
  | [], s, h => ⟨h, by simp [run_status]⟩
  | StatusAction.emit e :: rest, s, h => by
    have ih := run_status_invariant rest
      (s.emit e.step_name e.status e.timestamp e.duration_ms e.error)
      (by simpa [PipelineStatus.emit] using le_trans h (Nat.le_succ _))
    refine ⟨ih.1, ?_⟩
    rw [show (run_status s (StatusAction.emit e :: rest)) =
      run_status (s.emit e.step_name e.status e.timestamp e.duration_ms e.error) rest from rfl]
    rw [← ih.2]
    simp only [PipelineStatus.emit]
    rw [List.take_append_of_le_length h]
  | StatusAction.markComplete :: rest, s, h => by
    have ih := run_status_invariant rest s.mark_complete h
    exact ⟨ih.1, ih.2⟩
  | StatusAction.wait :: rest, s, h => by
    have ih := run_status_invariant rest s.wait_for_event.1
      (by simp [PipelineStatus.wait_for_event])
    refine ⟨ih.1, ?_⟩
    rw [show (run_status s (StatusAction.wait :: rest)).2 =
      s.wait_for_event.2 :: (run_status s.wait_for_event.1 rest).2 from rfl]
    rw [show (run_status s (StatusAction.wait :: rest)).1 =
      (run_status s.wait_for_event.1 rest).1 from rfl]
    rw [← ih.2]
    simp only [PipelineStatus.wait_for_event, List.flatten_cons, List.take_length]
    rw [← List.append_assoc, List.take_append_drop]

/-- C9: for every sequence of `emit` / `mark_complete` / `wait_for_event`
calls on one `PipelineStatus` with a single consumer, each `wait_for_event`
returns exactly the events appended since the previous read, in append order
(the suffix past the cursor), advances the cursor to the end, and returns the
empty list when no events are pending; over a whole trace the concatenation
of all returned batches is exactly the prefix of the final event list up to
the final cursor — no event is delivered twice and none is skipped.
(Real-time aspects — the bounded timeout and wake-up promptness — are
abstracted: a call is modelled atomically at its return point.) -/
theorem pipeline_status_exact_delivery (rid : String) (acts : List StatusAction) :
    (∀ s : PipelineStatus,
      s.wait_for_event.2 = s.events.drop s.event_index ∧
      s.wait_for_event.1.event_index = s.events.length ∧
      (s.event_index = s.events.length → s.wait_for_event.2 = [])) ∧
    (run_status ⟨rid, [], false, 0⟩ acts).2.flatten =
      (run_status ⟨rid, [], false, 0⟩ acts).1.events.take
        (run_status ⟨rid, [], false, 0⟩ acts).1.event_index ∧
    (run_status ⟨rid, [], false, 0⟩ acts).1.event_index ≤
      (run_status ⟨rid, [], false, 0⟩ acts).1.events.length := by
  refine ⟨fun s => ⟨rfl, rfl, fun h => ?_⟩, ?_, ?_⟩
  · simp [PipelineStatus.wait_for_event, h]
  · have := run_status_invariant acts ⟨rid, [], false, 0⟩ (by simp)
    simpa using this.2
  · exact (run_status_invariant acts ⟨rid, [], false, 0⟩ (by simp)).1

/-- Witness for C9: on a fresh status with no pending events, a wait returns
the empty batch; a singleton trace delivers exactly the emitted event. -/
theorem pipeline_status_exact_delivery_witness :
    (PipelineStatus.wait_for_event ⟨"r1", [], false, 0⟩).2 = [] ∧
    (run_status ⟨"r1", [], false, 0⟩
      [StatusAction.emit ⟨"fetch", "started", "t0", none, none⟩, StatusAction.wait]).2.flatten =
      (run_status ⟨"r1", [], false, 0⟩
        [StatusAction.emit ⟨"fetch", "started", "t0", none, none⟩, StatusAction.wait]).1.events.take
        (run_status ⟨"r1", [], false, 0⟩
          [StatusAction.emit ⟨"fetch", "started", "t0", none, none⟩, StatusAction.wait]).1.event_index := by
  constructor
  · exact ((pipeline_status_exact_delivery "r1" []).1 ⟨"r1", [], false, 0⟩).2.2 rfl
  · exact (pipeline_status_exact_delivery "r1"
      [StatusAction.emit ⟨"fetch", "started", "t0", none, none⟩, StatusAction.wait]).2.1

section BlenderLemmas

theorem lookup_append_of_not_key {β : Type} (l1 l2 : List (String × β)) (k : String)
    (h : ∀ p ∈ l1, p.1 ≠ k) : (l1 ++ l2).lookup k = l2.lookup k := by
  induction l1 with
  | nil => rfl
  | cons a l ih =>
    have ha : a.1 ≠ k := h a (List.mem_cons_self a l)
    have hb : (k == a.1) = false := by
      simp only [beq_eq_false_iff_ne]
      exact fun hh => ha hh.symm
    cases a with
    | mk a1 a2 =>
      rw [List.cons_append, List.lookup, hb]
      exact ih fun p hp => h p (List.mem_cons_of_mem _ hp)

theorem lookup_eq_some_mem {β : Type} {l : List (String × β)} {k : String} {v : β}
    (h : l.lookup k = some v) : (k, v) ∈ l := by
  induction l with
  | nil => simp [List.lookup] at h
  | cons a l ih =>
    cases a with
    | mk a1 a2 =>
      rw [List.lookup] at h
      cases hk : (k == a1) with
      | true =>
        rw [hk] at h
        cases h
        exact (beq_iff_eq.mp hk) ▸ List.mem_cons_self _ _
      | false =>
        rw [hk] at h
        exact List.mem_cons_of_mem _ (ih h)

theorem sum_map_div {α : Type} [LinearOrderedField α] (l : List (String × α)) (t : α) :
    ((l.map fun kv => kv.2 / t)).sum = (l.map Prod.snd).sum / t := by
  induction l with
  | nil => simp
  | cons a l ih => simp [ih, add_div]

end BlenderLemmas

theorem default_weights_last_round_lookup {α : Type} [LinearOrderedField α]
    (comps : Option (CompsResult α)) (dcf : Option (DCFResult α)) (lr : LastRoundResult α)
    (results : List (String × α)) (h : (results.lookup "last_round").isSome) :
    (default_weights comps dcf (some lr) results).1.lookup "last_round" =
      some (if model_estimated lr.warnings then 10/100
        else if (match lr.months_since_round with
          | some m => decide (18 < m)
          | none => false) then 15/100 else 25/100) := by
  unfold default_weights
  dsimp only
  rw [lookup_append_of_not_key]
  · rw [if_pos h]
    by_cases he : model_estimated lr.warnings
    · simp [he, List.lookup]
    · by_cases hs : (match lr.months_since_round with
        | some m => decide (18 < m)
        | none => false) = true
      · simp [he, hs, List.lookup]
      · simp [he, hs, List.lookup]
  · intro p hp
    rw [List.mem_append] at hp
    rcases hp with hp | hp <;>
    · split at hp
      · split at hp <;> simp_all
      · simp at hp

/-- C7: when default weighting applies and the last-round method contributes,
its heuristic weight is 0.10 when its warnings mark it model-estimated
(checked before staleness, so an estimated-and-stale round gets 0.10, never
0.15), otherwise 0.15 when months since the round exceed 18, otherwise 0.25;
consequently a stale (24-month) last-round weight is strictly less than a
fresh (6-month) one, all else equal. -/
theorem default_weights_last_round_precedence {α : Type} [LinearOrderedField α]
    (comps : Option (CompsResult α)) (dcf : Option (DCFResult α)) (lr : LastRoundResult α)
    (results : List (String × α)) (h : (results.lookup "last_round").isSome) :
    (model_estimated lr.warnings = true →
      (default_weights comps dcf (some lr) results).1.lookup "last_round" = some (10/100)) ∧
    (model_estimated lr.warnings = false →
      (∀ m : ℤ, lr.months_since_round = some m → 18 < m →
        (default_weights comps dcf (some lr) results).1.lookup "last_round" = some (15/100)) ∧
      (∀ m : ℤ, lr.months_since_round = some m → m ≤ 18 →
        (default_weights comps dcf (some lr) results).1.lookup "last_round" = some (25/100)) ∧
      (lr.months_since_round = none →
        (default_weights comps dcf (some lr) results).1.lookup "last_round" = some (25/100))) ∧
    (∀ lr24 lr6 : LastRoundResult α, model_estimated lr24.warnings = false →
      model_estimated lr6.warnings = false →
      lr24.months_since_round = some 24 → lr6.months_since_round = some 6 →
      ∃ w24 w6 : α,
        (default_weights comps dcf (some lr24) results).1.lookup "last_round" = some w24 ∧
        (default_weights comps dcf (some lr6) results).1.lookup "last_round" = some w6 ∧
        w24 < w6) := by
  refine ⟨?_, ?_, ?_⟩
  · intro he
    rw [default_weights_last_round_lookup comps dcf lr results h, if_pos he]
  · intro he
    refine ⟨?_, ?_, ?_⟩
    · intro m hm h18
      rw [default_weights_last_round_lookup comps dcf lr results h,
        if_neg (by simp [he]), if_pos (by simp [hm, h18])]
    · intro m hm h18
      rw [default_weights_last_round_lookup comps dcf lr results h,
        if_neg (by simp [he]), if_neg (by simp [hm]; omega)]
    · intro hm
      rw [default_weights_last_round_lookup comps dcf lr results h,
        if_neg (by simp [he]), if_neg (by simp [hm])]
  · intro lr24 lr6 he24 he6 hm24 hm6
    refine ⟨15/100, 25/100, ?_, ?_, by norm_num⟩
    · rw [default_weights_last_round_lookup comps dcf lr24 results h,
        if_neg (by simp [he24]), if_pos (by simp [hm24])]
    · rw [default_weights_last_round_lookup comps dcf lr6 results h,
        if_neg (by simp [he6]), if_neg (by simp [hm6])]

/-- Witness for C7 at a concrete results dict and three concrete last-round
results (estimated-and-stale, stale, fresh). -/
theorem default_weights_last_round_precedence_witness :
    (([("last_round", (50 : ℚ))] : List (String × ℚ)).lookup "last_round").isSome = true ∧
    (default_weights (α := ℚ) none none
      (some ⟨"last_round", 50, 40, none, 1, some 24, ["data is model-estimated here"]⟩)
      [("last_round", 50)]).1.lookup "last_round" = some (10/100) ∧
    (default_weights (α := ℚ) none none
      (some ⟨"last_round", 50, 40, none, 1, some 24, []⟩)
      [("last_round", 50)]).1.lookup "last_round" = some (15/100) ∧
    (default_weights (α := ℚ) none none
      (some ⟨"last_round", 50, 40, none, 1, some 6, []⟩)
      [("last_round", 50)]).1.lookup "last_round" = some (25/100) := by
  have h : (([("last_round", (50 : ℚ))] : List (String × ℚ)).lookup "last_round").isSome = true := by
    simp [List.lookup]
  refine ⟨h, ?_, ?_, ?_⟩
  · exact (default_weights_last_round_precedence none none
      ⟨"last_round", 50, 40, none, 1, some 24, ["data is model-estimated here"]⟩
      [("last_round", 50)] h).1 (by decide)
  · exact ((default_weights_last_round_precedence none none
      ⟨"last_round", 50, 40, none, 1, some 24, []⟩
      [("last_round", 50)] h).2.1 (by decide)).1 24 rfl (by norm_num)
  · exact ((default_weights_last_round_precedence none none
      ⟨"last_round", 50, 40, none, 1, some 6, []⟩
      [("last_round", 50)] h).2.1 (by decide)).2.1 6 rfl (by norm_num)

/-- C6: the blender treats any method result with enterprise value ≤ 0 (or an
absent result) as not contributing: a non-positive-EV comps result passed
alongside a DCF result with enterprise value 100 yields fair value 100 with no
"comps" weight entry; and when no method has a positive enterprise value the
blender returns (does not raise) a `BlendedValuation` with fair value 0,
range [0, 0] and an empty methodology-weights list. -/
theorem blender_nonpositive_excluded {α : Type} [LinearOrderedField α]
    (c : CompsResult α) (d : DCFResult α)
    (hc : c.enterprise_value ≤ 0) (hd : d.enterprise_value = 100) :
    ((compute_blended_valuation (some c) (some d) none none).fair_value = 100 ∧
      ∀ mw ∈ (compute_blended_valuation (some c) (some d) none none).methodology_weights,
        mw.method ≠ "comps") ∧
    (∀ (c' : Option (CompsResult α)) (d' : Option (DCFResult α))
        (l' : Option (LastRoundResult α)),
      (∀ x, c' = some x → x.enterprise_value ≤ 0) →
      (∀ x, d' = some x → x.enterprise_value ≤ 0) →
      (∀ x, l' = some x → x.enterprise_value ≤ 0) →
      (compute_blended_valuation c' d' l' none).fair_value = 0 ∧
      (compute_blended_valuation c' d' l' none).fair_value_range = [0, 0] ∧
      (compute_blended_valuation c' d' l' none).methodology_weights = []) := by
  have hres : blend_results (some c) (some d) (none : Option (LastRoundResult α)) =
      [("dcf", (100 : α))] := by
    simp [blend_results, not_lt.mpr hc, hd]
  have l1 : (List.lookup "comps" [("dcf", (100 : α))]) = none := rfl
  have l2 : (List.lookup "dcf" [("dcf", (100 : α))]) = some 100 := rfl
  have l3 : (List.lookup "last_round" [("dcf", (100 : α))]) = none := rfl
  constructor
  · constructor
    · by_cases hest : model_estimated d.warnings <;>
        norm_num [compute_blended_valuation, blend_fair_value, blend_weights,
          pre_normal_weights, default_weights, hres, hest, l1, l2, l3]
    · intro mw hmw
      by_cases hest : model_estimated d.warnings <;>
        norm_num [compute_blended_valuation, blend_weights,
          pre_normal_weights, default_weights, hres, hest, l1, l2, l3] at hmw <;>
        simp [hmw]
  · intro c' d' l' h1 h2 h3
    have p1 : (match c' with
        | some x => if 0 < x.enterprise_value then [("comps", x.enterprise_value)] else []
        | none => ([] : List (String × α))) = [] := by
      rcases c' with _ | x
      · rfl
      · exact if_neg (not_lt.mpr (h1 x rfl))
    have p2 : (match d' with
        | some x => if 0 < x.enterprise_value then [("dcf", x.enterprise_value)] else []
        | none => ([] : List (String × α))) = [] := by
      rcases d' with _ | x
      · rfl
      · exact if_neg (not_lt.mpr (h2 x rfl))
    have p3 : (match l' with
        | some x => if 0 < x.enterprise_value then [("last_round", x.enterprise_value)] else []
        | none => ([] : List (String × α))) = [] := by
      rcases l' with _ | x
      · rfl
      · exact if_neg (not_lt.mpr (h3 x rfl))
    have hres0 : blend_results c' d' l' = [] := by
      unfold blend_results
      rw [p1, p2, p3]
      rfl
    refine ⟨?_, ?_, ?_⟩ <;> simp [compute_blended_valuation, hres0]

/-- Witness for C6 at a zero-EV comps result and a 100-EV DCF result
(and the all-absent case). -/
theorem blender_nonpositive_excluded_witness :
    ((compute_blended_valuation (α := ℚ)
        (some ⟨"comps", 0, 0, 0, none, none, 0, [], [], [], none⟩)
        (some ⟨"dcf", 100, [], 0, 12/100, 3/100, [], []⟩) none none).fair_value = 100 ∧
      ∀ mw ∈ (compute_blended_valuation (α := ℚ)
          (some ⟨"comps", 0, 0, 0, none, none, 0, [], [], [], none⟩)
          (some ⟨"dcf", 100, [], 0, 12/100, 3/100, [], []⟩) none none).methodology_weights,
        mw.method ≠ "comps") ∧
    ((compute_blended_valuation (α := ℚ) none none none none).fair_value = 0 ∧
      (compute_blended_valuation (α := ℚ) none none none none).fair_value_range = [0, 0] ∧
      (compute_blended_valuation (α := ℚ) none none none none).methodology_weights = []) := by
  constructor
  · exact (blender_nonpositive_excluded
      (⟨"comps", 0, 0, 0, none, none, 0, [], [], [], none⟩ : CompsResult ℚ)
      (⟨"dcf", 100, [], 0, 12/100, 3/100, [], []⟩ : DCFResult ℚ) le_rfl rfl).1
  · exact (blender_nonpositive_excluded
      (⟨"comps", 0, 0, 0, none, none, 0, [], [], [], none⟩ : CompsResult ℚ)
      (⟨"dcf", 100, [], 0, 12/100, 3/100, [], []⟩ : DCFResult ℚ) le_rfl rfl).2
      none none none (by simp) (by simp) (by simp)

theorem blend_results_lookup_pos {α : Type} [LinearOrderedField α]
    (c : Option (CompsResult α)) (d : Option (DCFResult α)) (l : Option (LastRoundResult α))
    (k : String) (v : α) (h : (blend_results c d l).lookup k = some v) : 0 < v := by
  have hmem := lookup_eq_some_mem h
  unfold blend_results at hmem
  rw [List.mem_append, List.mem_append] at hmem
  rcases hmem with (hm | hm) | hm <;> revert hm <;> split <;> (try simp) <;>
    intros <;> simp_all

theorem default_weights_mem_isSome {α : Type} [LinearOrderedField α]
    (c : Option (CompsResult α)) (d : Option (DCFResult α)) (l : Option (LastRoundResult α))
    (results : List (String × α)) :
    ∀ kv ∈ (default_weights c d l results).1, (results.lookup kv.1).isSome := by
  intro kv hkv
  unfold default_weights at hkv
  dsimp only at hkv
  rw [List.mem_append, List.mem_append] at hkv
  rcases hkv with (hm | hm) | hm <;> (revert hm; split <;> [skip; simp] <;> split_ifs <;> simp_all)

theorem default_weights_mem_pos {α : Type} [LinearOrderedField α]
    (c : Option (CompsResult α)) (d : Option (DCFResult α)) (l : Option (LastRoundResult α))
    (results : List (String × α)) :
    ∀ kv ∈ (default_weights c d l results).1, 0 < kv.2 := by
  intro kv hkv
  unfold default_weights at hkv
  dsimp only at hkv
  rw [List.mem_append, List.mem_append] at hkv
  rcases hkv with (hm | hm) | hm <;>
    (revert hm; split <;> [skip; simp] <;> split_ifs <;> intro hm <;> simp_all) <;> norm_num

theorem blend_results_keys {α : Type} [LinearOrderedField α]
    (c : Option (CompsResult α)) (d : Option (DCFResult α)) (l : Option (LastRoundResult α)) :
    ∀ kv ∈ blend_results c d l, kv.1 = "comps" ∨ kv.1 = "dcf" ∨ kv.1 = "last_round" := by
  intro kv hkv
  unfold blend_results at hkv
  rw [List.mem_append, List.mem_append] at hkv
  rcases hkv with (hm | hm) | hm <;> (revert hm; split <;> simp_all) <;> split_ifs <;> simp_all

theorem pre_normal_weights_nil {α : Type} [LinearOrderedField α]
    (c : Option (CompsResult α)) (d : Option (DCFResult α)) (l : Option (LastRoundResult α))
    (cw : Option (List (String × α))) (h : blend_results c d l = []) :
    (pre_normal_weights c d l cw).1 = [] := by
  unfold pre_normal_weights
  rw [h]
  rcases cw with _ | cwl
  · simp [default_weights, List.lookup]
  · by_cases hc : cwl = []
    · simp [hc, default_weights, List.lookup]
    · simp [hc, default_weights, List.lookup, List.filter_eq_nil_iff]

theorem default_weights_ne_nil {α : Type} [LinearOrderedField α]
    (c : Option (CompsResult α)) (d : Option (DCFResult α)) (l : Option (LastRoundResult α))
    (results : List (String × α)) (hne : results ≠ [])
    (hkeys : ∀ kv ∈ results, kv.1 = "comps" ∨ kv.1 = "dcf" ∨ kv.1 = "last_round") :
    (default_weights c d l results).1 ≠ [] := by
  obtain ⟨⟨k, v⟩, t, rfl⟩ := List.exists_cons_of_ne_nil hne
  have hk := hkeys (k, v) (List.mem_cons_self _ _)
  have hsome : ((((k, v) :: t) : List (String × α)).lookup k).isSome := by
    simp [List.lookup]
  unfold default_weights
  dsimp only
  rcases hk with h | h | h <;> subst h
  · intro hcontra
    rw [List.append_eq_nil, List.append_eq_nil] at hcontra
    have h1 := hcontra.1.1
    rw [if_pos hsome] at h1
    revert h1
    split_ifs <;> simp
  · intro hcontra
    rw [List.append_eq_nil, List.append_eq_nil] at hcontra
    have h1 := hcontra.1.2
    rw [if_pos hsome] at h1
    revert h1
    split_ifs <;> simp
  · intro hcontra
    rw [List.append_eq_nil, List.append_eq_nil] at hcontra
    have h1 := hcontra.2
    rw [if_pos hsome] at h1
    revert h1
    split_ifs <;> simp

theorem sum_weights_eq {α : Type} [LinearOrderedField α] (wr : List (String × α)) (t : α)
    (rat : String × α → String) :
    (((wr.map fun kv => (kv.1, kv.2 / t)).map fun kv =>
      MethodologyWeight.mk kv.1 kv.2 (rat kv)).map fun mw => mw.weight) =
      wr.map fun kv => kv.2 / t := by
  induction wr with
  | nil => rfl
  | cons a lrest ih => simp [ih]

/-- C8: whenever the pre-normalization weight total is positive — which always
holds for the heuristic defaults when some method contributes — the blender's
emitted weights cover only methods with a positive enterprise value and sum to
exactly 1; caller-supplied weights are filtered to the contributing methods and
renormalized; and the fair value equals the sum over the emitted weights of
weight × enterprise value. -/
theorem blender_weights_normalized {α : Type} [LinearOrderedField α]
    (c : Option (CompsResult α)) (d : Option (DCFResult α)) (l : Option (LastRoundResult α))
    (cw : Option (List (String × α)))
    (htot : 0 < ((pre_normal_weights c d l cw).1.map Prod.snd).sum) :
    (((compute_blended_valuation c d l cw).methodology_weights.map fun mw => mw.weight).sum
      = 1) ∧
    (∀ mw ∈ (compute_blended_valuation c d l cw).methodology_weights,
      ∃ v, (blend_results c d l).lookup mw.method = some v ∧ 0 < v) ∧
    ((compute_blended_valuation c d l cw).fair_value =
      ((compute_blended_valuation c d l cw).methodology_weights.map fun mw =>
        ((blend_results c d l).lookup mw.method).getD 0 * mw.weight).sum) ∧
    (∀ (c' : Option (CompsResult α)) (d' : Option (DCFResult α))
        (l' : Option (LastRoundResult α)), blend_results c' d' l' ≠ [] →
      0 < ((pre_normal_weights c' d' l' none).1.map Prod.snd).sum) := by
  have hne : blend_results c d l ≠ [] := by
    intro h
    rw [pre_normal_weights_nil c d l cw h] at htot
    simp at htot
  have hkv_some : ∀ kv ∈ (pre_normal_weights c d l cw).1,
      ((blend_results c d l).lookup kv.1).isSome := by
    intro kv hkv
    unfold pre_normal_weights at hkv
    rcases cw with _ | cwl
    · exact default_weights_mem_isSome c d l (blend_results c d l) kv hkv
    · dsimp only at hkv
      by_cases hc : cwl = []
      · rw [if_neg (by simp [hc])] at hkv
        exact default_weights_mem_isSome c d l (blend_results c d l) kv hkv
      · rw [if_pos hc] at hkv
        exact (List.mem_filter.mp hkv).2
  have hunfold : compute_blended_valuation c d l cw =
      { fair_value := blend_fair_value c d l cw,
        fair_value_range :=
          [blend_fair_value c d l cw * (1 - blend_range_pct c),
           blend_fair_value c d l cw * (1 + blend_range_pct c)],
        methodology_weights := (blend_weights c d l cw).map fun kv =>
          MethodologyWeight.mk kv.1 kv.2
            (((pre_normal_weights c d l cw).2.lookup kv.1).getD ""),
        comps_result := c, dcf_result := d, last_round_result := l } := by
    rw [compute_blended_valuation, if_neg hne]
  rw [hunfold]
  dsimp only
  have hwts : blend_weights c d l cw = (pre_normal_weights c d l cw).1.map
      (fun kv => (kv.1, kv.2 / ((pre_normal_weights c d l cw).1.map Prod.snd).sum)) := by
    rw [blend_weights]
    exact if_pos htot
  refine ⟨?_, ?_, ?_, ?_⟩
  · rw [hwts, sum_weights_eq, sum_map_div]
    exact div_self (ne_of_gt htot)
  · intro mw hmw
    rw [hwts, List.map_map, List.mem_map] at hmw
    obtain ⟨kv, hkv, hmk⟩ := hmw
    have hsome := hkv_some kv hkv
    obtain ⟨v, hv⟩ := Option.isSome_iff_exists.mp hsome
    refine ⟨v, ?_, blend_results_lookup_pos c d l kv.1 v hv⟩
    rw [← hmk]
    exact hv
  · rw [blend_fair_value, List.map_map]
    rfl
  · intro c' d' l' hne'
    have h1 := default_weights_ne_nil c' d' l' (blend_results c' d' l') hne'
      (blend_results_keys c' d' l')
    have h2 := default_weights_mem_pos c' d' l' (blend_results c' d' l')
    have hpre : (pre_normal_weights c' d' l' none).1 = (default_weights c' d' l'
        (blend_results c' d' l')).1 := rfl
    rw [hpre]
    apply List.sum_pos
    · intro x hx
      rw [List.mem_map] at hx
      obtain ⟨kv, hkv, rfl⟩ := hx
      exact h2 kv hkv
    · simpa using h1


/-- A DCF result with enterprise value 100 (used to exercise the blender). -/
def dcf100 : DCFResult ℚ :=
  ⟨"dcf", 100, [], 0, 12/100, 3/100, [], []⟩

/-- Witness for C8 at a lone 100-EV DCF result with default weights. -/
theorem blender_weights_normalized_witness :
    (0 < ((pre_normal_weights (α := ℚ) none (some dcf100) none none).1.map Prod.snd).sum) ∧
    (((compute_blended_valuation (α := ℚ) none (some dcf100) none
      none).methodology_weights.map fun mw => mw.weight).sum = 1) ∧
    ((compute_blended_valuation (α := ℚ) none (some dcf100) none none).fair_value =
      ((compute_blended_valuation (α := ℚ) none (some dcf100) none
        none).methodology_weights.map fun mw =>
        ((blend_results (α := ℚ) none (some dcf100) none).lookup mw.method).getD 0 *
          mw.weight).sum) := by
  have hres : blend_results (α := ℚ) none (some dcf100) none = [("dcf", 100)] := by
    norm_num [blend_results, dcf100]
  have l1 : (List.lookup "comps" [("dcf", (100 : ℚ))]) = none := rfl
  have l2 : (List.lookup "dcf" [("dcf", (100 : ℚ))]) = some 100 := rfl
  have l3 : (List.lookup "last_round" [("dcf", (100 : ℚ))]) = none := rfl
  have htot : 0 < ((pre_normal_weights (α := ℚ) none (some dcf100) none
      none).1.map Prod.snd).sum := by
    rw [show (pre_normal_weights (α := ℚ) none (some dcf100) none none).1 =
      (default_weights (α := ℚ) none (some dcf100) none
        (blend_results none (some dcf100) none)).1 from rfl, hres]
    norm_num [default_weights, l1, l2, l3, model_estimated, dcf100]
  have h := blender_weights_normalized (α := ℚ) none (some dcf100) none none htot
  exact ⟨htot, h.1, h.2.2.1⟩

/-- Counterexample to C8 as stated: a caller-supplied weight map with a zero
weight for a contributing method yields a non-empty emitted weight list whose
weights sum to 0, not 1 (normalization is skipped when the total is not
positive). -/
theorem blender_zero_custom_weight_counterexample :
    (compute_blended_valuation (α := ℚ) none (some dcf100) none
        (some [("dcf", 0)])).methodology_weights.map (fun mw => mw.weight) = [0] ∧
    ((compute_blended_valuation (α := ℚ) none (some dcf100) none
        (some [("dcf", 0)])).methodology_weights.map (fun mw => mw.weight)).sum ≠ 1 := by
  have hres : blend_results (α := ℚ) none (some dcf100) none = [("dcf", 100)] := by
    norm_num [blend_results, dcf100]
  have l2 : (List.lookup "dcf" [("dcf", (100 : ℚ))]) = some 100 := rfl
  constructor
  · norm_num [compute_blended_valuation, blend_weights, pre_normal_weights, hres, l2,
      List.filter]
  · norm_num [compute_blended_valuation, blend_weights, pre_normal_weights, hres, l2,
      List.filter]

section DCFPureValues

variable {α : Type} [LinearOrderedField α] [FloorRing α]

/-- The pure list of discounted cash flows (what `discounted_fcfs_from` returns
when `1 + wacc` is non-zero). -/
def disc_pure_from (wacc : α) : ℕ → List α → List α
  | _, [] => []
  | i, f :: fs => f / (1 + wacc) ^ (i + 1) :: disc_pure_from wacc (i + 1) fs

/-- The terminal value `_compute_ev` produces on the non-raising path. -/
def tv_value (revs margins : List α) (capex nwc tax dep wacc tgr : α) : α :=
  ((fcf_pure_from margins capex nwc tax dep 0 revs).getLastD 0 * (1 + tgr)) / (wacc - tgr)

/-- The enterprise value `_compute_ev` produces on the non-raising path. -/
def ev_value (revs margins : List α) (capex nwc tax dep wacc tgr : α) : α :=
  (disc_pure_from wacc 0 (fcf_pure_from margins capex nwc tax dep 0 revs)).sum +
    tv_value revs margins capex nwc tax dep wacc tgr / (1 + wacc) ^ revs.length

theorem discounted_fcfs_from_ok (wacc : α) (hw1 : (1 : α) + wacc ≠ 0) :
    ∀ (i : ℕ) (fs : List α),
      discounted_fcfs_from wacc i fs = .ok (disc_pure_from wacc i fs)
  | _, [] => rfl
  | i, f :: fs => by
    rw [discounted_fcfs_from, disc_pure_from, if_neg (pow_ne_zero _ hw1),
      discounted_fcfs_from_ok wacc hw1 (i + 1) fs]
    rfl

theorem fcf_pure_from_ne_nil (margins : List α) (capex nwc tax dep : α) (k : ℕ)
    (revs : List α) (hr : revs ≠ []) :
    fcf_pure_from margins capex nwc tax dep k revs ≠ [] := by
  cases revs with
  | nil => exact absurd rfl hr
  | cons a as => simp [fcf_pure_from]

theorem compute_ev_ok (revs margins : List α) (capex nwc tax dep wacc tgr : α)
    (hm : margins ≠ []) (hr : revs ≠ []) (hw1 : (1 : α) + wacc ≠ 0) (hwt : wacc ≠ tgr) :
    compute_ev revs margins capex nwc tax dep wacc tgr =
      .ok (ev_value revs margins capex nwc tax dep wacc tgr,
        fcf_pure_from margins capex nwc tax dep 0 revs,
        tv_value revs margins capex nwc tax dep wacc tgr) := by
  have h1 : fcf_list revs margins capex nwc tax dep =
      .ok (fcf_pure_from margins capex nwc tax dep 0 revs) :=
    fcf_list_from_ok margins capex nwc tax dep hm revs 0
  have h2 : discounted_fcfs (fcf_pure_from margins capex nwc tax dep 0 revs) wacc =
      .ok (disc_pure_from wacc 0 (fcf_pure_from margins capex nwc tax dep 0 revs)) :=
    discounted_fcfs_from_ok wacc hw1 0 _
  have hlast : (fcf_pure_from margins capex nwc tax dep 0 revs).getLast? =
      some ((fcf_pure_from margins capex nwc tax dep 0 revs).getLastD 0) := by
    cases hgl : (fcf_pure_from margins capex nwc tax dep 0 revs).getLast? with
    | none =>
      exact absurd (List.getLast?_eq_none_iff.mp hgl)
        (fcf_pure_from_ne_nil margins capex nwc tax dep 0 revs hr)
    | some x => rw [List.getLastD_eq_getLast?, hgl]; rfl
  rw [compute_ev, h1]
  simp only [Bind.bind, Except.bind]
  rw [h2]
  simp only [hlast]
  rw [if_neg (sub_ne_zero.mpr hwt), if_neg (pow_ne_zero _ hw1)]
  rfl

theorem except_map_list_ok {γ δ : Type} (f : γ → Except PyError δ) (g : γ → δ)
    (L : List γ) (h : ∀ a ∈ L, f a = .ok (g a)) :
    except_map_list f L = .ok (L.map g) := by
  induction L with
  | nil => rfl
  | cons a l ih =>
    rw [except_map_list, h a (List.mem_cons_self _ _),
      ih fun b hb => h b (List.mem_cons_of_mem _ hb)]
    rfl

/-- The filtered list of (WACC, growth) pairs of the sensitivity grid. -/
def sens_pairs (base_wacc base_tgr : α) : List (α × α) :=
  ((([-(2/100), -(1/100), 0, 1/100, 2/100] : List α).map
      (fun d => base_wacc + d)).flatMap fun w =>
    (([-(1/100), -(1/200), 0, 1/200, 1/100] : List α).map
      (fun d => base_tgr + d)).map fun t => (w, t)).filter
        fun p => decide (p.2 < p.1) && decide (0 < p.1)

/-- The cell the sensitivity table emits for one retained pair. -/
def sens_cell (revs margins : List α) (capex nwc tax dep : α) (p : α × α) :
    SensitivityCell α :=
  SensitivityCell.mk (py_round p.1 4) (py_round p.2 4)
    (py_round (ev_value revs margins capex nwc tax dep p.1 p.2) 2)

theorem compute_sensitivity_table_ok (revs margins : List α)
    (capex nwc tax dep base_wacc base_tgr : α) (hm : margins ≠ []) (hr : revs ≠ []) :
    compute_sensitivity_table revs margins capex nwc tax dep base_wacc base_tgr =
      .ok ((sens_pairs base_wacc base_tgr).map (sens_cell revs margins capex nwc tax dep)) := by
  rw [compute_sensitivity_table]
  apply except_map_list_ok
  intro p hp
  have hP := (List.mem_filter.mp hp).2
  rw [Bool.and_eq_true, decide_eq_true_eq, decide_eq_true_eq] at hP
  rw [compute_ev_ok revs margins capex nwc tax dep p.1 p.2 hm hr
    (ne_of_gt (by linarith [hP.2])) (ne_of_gt hP.1)]
  rfl

/-- The result `compute_dcf_valuation` returns on the non-raising path. -/
def dcf_ok_result (p : FinancialProjections α) : DCFResult α :=
  { enterprise_value := ev_value p.revenue_projections p.ebitda_margins p.capex_percent
      p.nwc_change_percent p.tax_rate p.depreciation_percent p.wacc p.terminal_growth_rate,
    projected_fcfs := fcf_pure_from p.ebitda_margins p.capex_percent p.nwc_change_percent
      p.tax_rate p.depreciation_percent 0 p.revenue_projections,
    terminal_value := tv_value p.revenue_projections p.ebitda_margins p.capex_percent
      p.nwc_change_percent p.tax_rate p.depreciation_percent p.wacc p.terminal_growth_rate,
    discount_rate := p.wacc, terminal_growth_rate := p.terminal_growth_rate,
    warnings := [],
    sensitivity_table := (sens_pairs p.wacc p.terminal_growth_rate).map
      (sens_cell p.revenue_projections p.ebitda_margins p.capex_percent
        p.nwc_change_percent p.tax_rate p.depreciation_percent) }

theorem compute_dcf_valuation_ok (p : FinancialProjections α)
    (hm : p.ebitda_margins ≠ []) (hr : p.revenue_projections ≠ [])
    (hw : p.terminal_growth_rate < p.wacc) (hw1 : (1 : α) + p.wacc ≠ 0) :
    compute_dcf_valuation p = .ok (dcf_ok_result p) := by
  rw [compute_dcf_valuation, if_neg (not_le.mpr hw),
    if_neg (by simpa using fun h => hr (List.length_eq_zero.mp h))]
  rw [compute_ev_ok p.revenue_projections p.ebitda_margins p.capex_percent
    p.nwc_change_percent p.tax_rate p.depreciation_percent p.wacc p.terminal_growth_rate
    hm hr hw1 (ne_of_gt hw)]
  simp only [Bind.bind, Except.bind]
  rw [compute_sensitivity_table_ok p.revenue_projections p.ebitda_margins p.capex_percent
    p.nwc_change_percent p.tax_rate p.depreciation_percent p.wacc p.terminal_growth_rate hm hr]
  rfl

theorem abs_py_round_two_sub_le (x : α) : |py_round x 2 - x| ≤ 1/200 := by
  have h := abs_sub_round (x * 10 ^ 2)
  rw [abs_sub_comm] at h
  rw [py_round]
  have key : ((round (x * 10 ^ 2) : ℤ) : α) / 10 ^ 2 - x =
      (((round (x * 10 ^ 2) : ℤ) : α) - x * 10 ^ 2) / 10 ^ 2 := by ring
  rw [key, abs_div, abs_of_pos (by norm_num : (0 : α) < 10 ^ 2)]
  calc |((round (x * 10 ^ 2) : ℤ) : α) - x * 10 ^ 2| / 10 ^ 2 ≤ (1/2) / 10 ^ 2 :=
        (div_le_div_right (by norm_num)).mpr h
    _ = 1/200 := by norm_num

/-- Evaluation rule for `py_round` when the scaled value is an integer. -/
theorem py_round_eval (n : ℤ) (x : α) (d : ℕ) (h : x * 10 ^ d = (n : α)) :
    py_round x d = (n : α) / 10 ^ d := by
  rw [py_round, h, round_intCast]

end DCFPureValues

/-- C4: for every DCF input on the engine's non-raising path with
WACC > growth, a non-empty projection list and (amended) WACC > 0, the
sensitivity table contains only cells from the 5×5 grid
(WACC base ± 2%/1%/0 × growth base ± 1%/0.5%/0) whose WACC > growth and
WACC > 0, and it contains a cell at the base (WACC, growth) pair whose
enterprise value equals the primary enterprise value within rounding
tolerance (half a cent). -/
theorem dcf_sensitivity_table_cells {α : Type} [LinearOrderedField α] [FloorRing α]
    (p : FinancialProjections α) (r : DCFResult α)
    (hok : compute_dcf_valuation p = .ok r)
    (hw : p.terminal_growth_rate < p.wacc) (hrev : p.revenue_projections ≠ [])
    (hpos : 0 < p.wacc) :
    (∀ cell ∈ r.sensitivity_table,
      ∃ dw ∈ ([-(2/100), -(1/100), 0, 1/100, 2/100] : List α),
        ∃ dt ∈ ([-(1/100), -(1/200), 0, 1/200, 1/100] : List α),
          cell.wacc = py_round (p.wacc + dw) 4 ∧
          cell.terminal_growth_rate = py_round (p.terminal_growth_rate + dt) 4 ∧
          p.terminal_growth_rate + dt < p.wacc + dw ∧ 0 < p.wacc + dw) ∧
    (∃ cell ∈ r.sensitivity_table,
      cell.wacc = py_round p.wacc 4 ∧
      cell.terminal_growth_rate = py_round p.terminal_growth_rate 4 ∧
      |cell.enterprise_value - r.enterprise_value| ≤ 1/200) := by
  have hm : p.ebitda_margins ≠ [] := by
    intro hme
    rw [compute_dcf_empty_margins_error p hrev hme hw] at hok
    simp at hok
  have hkey := compute_dcf_valuation_ok p hm hrev hw (ne_of_gt (by linarith))
  rw [hok] at hkey
  have hr2 : r = dcf_ok_result p := by
    injection hkey
  subst hr2
  constructor
  · intro cell hcell
    simp only [dcf_ok_result] at hcell
    rw [List.mem_map] at hcell
    obtain ⟨pair, hpair, rfl⟩ := hcell
    obtain ⟨hmem, hP⟩ := List.mem_filter.mp hpair
    rw [List.mem_flatMap] at hmem
    obtain ⟨w, hw', hmemt⟩ := hmem
    rw [List.mem_map] at hw'
    obtain ⟨dw, hdw, rfl⟩ := hw'
    rw [List.mem_map] at hmemt
    obtain ⟨t, ht', rfl⟩ := hmemt
    rw [List.mem_map] at ht'
    obtain ⟨dt, hdt, rfl⟩ := ht'
    rw [Bool.and_eq_true, decide_eq_true_eq, decide_eq_true_eq] at hP
    exact ⟨dw, hdw, dt, hdt, rfl, rfl, hP.1, hP.2⟩
  · refine ⟨sens_cell p.revenue_projections p.ebitda_margins p.capex_percent
      p.nwc_change_percent p.tax_rate p.depreciation_percent
      (p.wacc + 0, p.terminal_growth_rate + 0), ?_, ?_, ?_, ?_⟩
    · show _ ∈ (dcf_ok_result p).sensitivity_table
      simp only [dcf_ok_result]
      apply List.mem_map_of_mem
      apply List.mem_filter.mpr
      constructor
      · rw [List.mem_flatMap]
        refine ⟨p.wacc + 0, List.mem_map_of_mem _ (by simp), ?_⟩
        exact List.mem_map_of_mem _ (List.mem_map_of_mem _ (by simp))
      · rw [Bool.and_eq_true, decide_eq_true_eq, decide_eq_true_eq]
        constructor
        · simpa using hw
        · simpa using hpos
    · show py_round (p.wacc + 0) 4 = py_round p.wacc 4
      rw [add_zero]
    · show py_round (p.terminal_growth_rate + 0) 4 = py_round p.terminal_growth_rate 4
      rw [add_zero]
    · show |py_round (ev_value p.revenue_projections p.ebitda_margins p.capex_percent
        p.nwc_change_percent p.tax_rate p.depreciation_percent
        (p.wacc + 0) (p.terminal_growth_rate + 0)) 2 -
          (dcf_ok_result p).enterprise_value| ≤ 1/200
      rw [add_zero, add_zero]
      exact abs_py_round_two_sub_le _

/-- The C4 witness input: a one-year projection with WACC 12% and growth 3%. -/
def dcf_c4_input : FinancialProjections ℚ :=
  ⟨[1000], [3/10], 1/20, 1/50, 1/4, 12/100, 3/100, 0⟩

/-- Witness for C4 at `dcf_c4_input`. -/
theorem dcf_sensitivity_table_cells_witness :
    compute_dcf_valuation dcf_c4_input = .ok (dcf_ok_result dcf_c4_input) ∧
    dcf_c4_input.terminal_growth_rate < dcf_c4_input.wacc ∧
    dcf_c4_input.revenue_projections ≠ [] ∧ 0 < dcf_c4_input.wacc ∧
    (∃ cell ∈ (dcf_ok_result dcf_c4_input).sensitivity_table,
      cell.wacc = py_round dcf_c4_input.wacc 4 ∧
      cell.terminal_growth_rate = py_round dcf_c4_input.terminal_growth_rate 4 ∧
      |cell.enterprise_value - (dcf_ok_result dcf_c4_input).enterprise_value| ≤ 1/200) := by
  have hok : compute_dcf_valuation dcf_c4_input = .ok (dcf_ok_result dcf_c4_input) :=
    compute_dcf_valuation_ok dcf_c4_input (by simp [dcf_c4_input])
      (by simp [dcf_c4_input]) (by norm_num [dcf_c4_input]) (by norm_num [dcf_c4_input])
  refine ⟨hok, by norm_num [dcf_c4_input], by simp [dcf_c4_input],
    by norm_num [dcf_c4_input], ?_⟩
  exact (dcf_sensitivity_table_cells dcf_c4_input (dcf_ok_result dcf_c4_input) hok
    (by norm_num [dcf_c4_input]) (by simp [dcf_c4_input]) (by norm_num [dcf_c4_input])).2

/-- The C4 counterexample input: WACC = −1% > growth = −5%, but WACC ≤ 0. -/
def dcf_c4_counter_input : FinancialProjections ℚ :=
  ⟨[100], [3/10], 1/20, 1/50, 1/4, -(1/100), -(1/20), 0⟩

/-- Counterexample to C4 as stated: with base WACC = −1% (> growth = −5%, so
the engine's preconditions pass) the base (WACC, growth) cell is skipped by
the `w <= 0` filter, so no cell of the sensitivity table carries the base
WACC. -/
theorem dcf_sensitivity_base_cell_missing :
    compute_dcf_valuation dcf_c4_counter_input = .ok (dcf_ok_result dcf_c4_counter_input) ∧
    dcf_c4_counter_input.terminal_growth_rate < dcf_c4_counter_input.wacc ∧
    dcf_c4_counter_input.revenue_projections ≠ [] ∧
    ∀ cell ∈ (dcf_ok_result dcf_c4_counter_input).sensitivity_table,
      cell.wacc ≠ py_round dcf_c4_counter_input.wacc 4 := by
  refine ⟨compute_dcf_valuation_ok dcf_c4_counter_input (by simp [dcf_c4_counter_input])
      (by simp [dcf_c4_counter_input]) (by norm_num [dcf_c4_counter_input])
      (by norm_num [dcf_c4_counter_input]),
    by norm_num [dcf_c4_counter_input], by simp [dcf_c4_counter_input], ?_⟩
  have hsp : sens_pairs (dcf_c4_counter_input.wacc)
      (dcf_c4_counter_input.terminal_growth_rate) =
      [(1/100, -(6/100)), (1/100, -(11/200)), (1/100, -(1/20)),
       (1/100, -(9/200)), (1/100, -(1/25))] := by
    norm_num [sens_pairs, dcf_c4_counter_input, List.filter]
  intro cell hcell
  simp only [dcf_ok_result, hsp] at hcell
  rw [py_round_eval (-100) _ 4 (by norm_num [dcf_c4_counter_input])]
  have hw4 : py_round ((1 : ℚ)/100) 4 = (100 : ℚ) / 10 ^ 4 :=
    py_round_eval 100 _ 4 (by norm_num)
  simp only [List.map_cons, List.map_nil, List.mem_cons, List.not_mem_nil, or_false] at hcell
  rcases hcell with h | h | h | h | h <;> rw [h] <;>
    simp only [sens_cell] <;> rw [hw4] <;> norm_num

/-- C5 (amended): in every selection record emitted by the comps scorer, the
stored size-proximity score is the 2-digit rounding of
`_size_proximity_score` when the target revenue is positive and of the
neutral 0.5 otherwise; `_size_proximity_score` itself is 0 when the
comparable revenue is missing or non-positive or the target revenue is ≤ 0,
0 when the revenue ratio lies outside [0.1, 10], and otherwise
`max 0 (1 − |log10 ratio|)`, so an exact revenue match scores 1 and the
score decreases monotonically in `|log10 ratio|`. -/
theorem size_proximity_score_spec :
    (∀ (cs : List (CompanyFinancials ℝ)) (tr : ℝ) (ts : Option String) (w1 w2 w3 mc : ℝ),
      (score_and_filter_comps cs tr ts w1 w2 w3 mc).2 = cs.map (comp_record ts tr w1 w2 w3 mc) ∧
      ∀ comp, (comp_record ts tr w1 w2 w3 mc comp).size_proximity_score =
        py_round (if 0 < tr then size_proximity_score comp.revenue tr else 1/2) 2) ∧
    (∀ tr : ℝ, size_proximity_score none tr = 0) ∧
    (∀ r tr : ℝ, r ≤ 0 ∨ tr ≤ 0 → size_proximity_score (some r) tr = 0) ∧
    (∀ r tr : ℝ, 0 < r → 0 < tr → (r / tr < 1/10 ∨ 10 < r / tr) →
      size_proximity_score (some r) tr = 0) ∧
    (∀ r tr : ℝ, 0 < r → 0 < tr → 1/10 ≤ r / tr → r / tr ≤ 10 →
      size_proximity_score (some r) tr = max 0 (1 - |Real.logb 10 (r / tr)|)) ∧
    (∀ tr : ℝ, 0 < tr → size_proximity_score (some tr) tr = 1) ∧
    (∀ r1 r2 tr : ℝ, 0 < r1 → 0 < r2 → 0 < tr →
      1/10 ≤ r1 / tr → r1 / tr ≤ 10 → 1/10 ≤ r2 / tr → r2 / tr ≤ 10 →
      |Real.logb 10 (r1 / tr)| ≤ |Real.logb 10 (r2 / tr)| →
      size_proximity_score (some r2) tr ≤ size_proximity_score (some r1) tr) := by
  have hzero : ∀ r tr : ℝ, r ≤ 0 ∨ tr ≤ 0 → size_proximity_score (some r) tr = 0 := by
    intro r tr h
    rw [size_proximity_score, if_pos h]
  have hrange : ∀ r tr : ℝ, 0 < r → 0 < tr → 1/10 ≤ r / tr → r / tr ≤ 10 →
      size_proximity_score (some r) tr = max 0 (1 - |Real.logb 10 (r / tr)|) := by
    intro r tr hr htr hlo hhi
    rw [size_proximity_score,
      if_neg (by push_neg; exact ⟨hr, htr⟩),
      if_neg (by push_neg; exact ⟨hlo, hhi⟩)]
    exact py_max_eq_max _ _
  refine ⟨?_, fun tr => rfl, hzero, ?_, hrange, ?_, ?_⟩
  · intro cs tr ts w1 w2 w3 mc
    exact ⟨rfl, fun comp => rfl⟩
  · intro r tr hr htr h
    rw [size_proximity_score,
      if_neg (by push_neg; exact ⟨hr, htr⟩), if_pos h]
  · intro tr htr
    have h1 : tr / tr = 1 := div_self (ne_of_gt htr)
    rw [hrange tr tr htr htr (by rw [h1]; norm_num) (by rw [h1]; norm_num), h1]
    simp [Real.logb_one]
  · intro r1 r2 tr hr1 hr2 htr hlo1 hhi1 hlo2 hhi2 hle
    rw [hrange r1 tr hr1 htr hlo1 hhi1, hrange r2 tr hr2 htr hlo2 hhi2]
    exact max_le_max le_rfl (by linarith)

/-- Witness for C5: an exact revenue match scores 1, a missing revenue scores
0, and the stored record value follows the scorer's rule (target 1000,
comparable revenue 1000). -/
theorem size_proximity_score_spec_witness :
    ((0 : ℝ) < 1000 ∧ size_proximity_score (some 1000) 1000 = 1) ∧
    size_proximity_score none (1000 : ℝ) = 0 ∧
    ((-5 : ℝ) ≤ 0 ∨ (1000 : ℝ) ≤ 0) ∧ size_proximity_score (some (-5)) (1000 : ℝ) = 0 := by
  refine ⟨⟨by norm_num, ?_⟩, ?_, Or.inl (by norm_num), ?_⟩
  · exact size_proximity_score_spec.2.2.2.2.2.1 1000 (by norm_num)
  · exact size_proximity_score_spec.2.1 1000
  · exact size_proximity_score_spec.2.2.1 (-5) 1000 (Or.inl (by norm_num))

/-- A comparable with known revenue 5 and EV/Revenue 2 (for the C5
counterexample). -/
def comp_c5 : CompanyFinancials ℝ :=
  ⟨"AAA", none, none, none, some 5, none, some 2, none, some "Tech", none, none, none⟩

/-- Counterexample to C5 as stated: with target revenue 0 (≤ 0) the scorer
stores the neutral score 0.5 in the selection record — not 0 as the claim
requires. -/
theorem size_score_neutral_at_nonpositive_target :
    ((score_and_filter_comps [comp_c5] 0 none (3/10) (4/10) (3/10) (3/10)).2.map
      fun rec => rec.size_proximity_score) = [1/2] ∧ ((1 : ℝ)/2 ≠ 0) := by
  constructor
  · show [py_round (comp_size_score 0 comp_c5) 2] = [1/2]
    have : comp_size_score (0 : ℝ) comp_c5 = 1/2 := by
      rw [comp_size_score, if_neg (by norm_num)]
    rw [this, py_round_eval 50 _ 2 (by norm_num)]
    norm_num
  · norm_num

/-- Whether a missing-prerequisites list names revenue (its revenue entries
start with "Revenue:"). -/
def revenue_named (missing : List String) : Bool :=
  missing.any fun s => "Revenue:".toList.isPrefixOf s.toList

/-- C1 (amended): `run_valuations` raises the structured `InsufficientData`
failure exactly when either no method is runnable (per `can_run_comps`,
`can_run_dcf`, `can_run_last_round`) or the blended fair value is exactly 0;
in every other case it returns the `BlendedValuation` without raising.  The
missing-prerequisites list attached to the failure names revenue if and only
if the resolved revenue is absent or zero — when revenue is resolved the
list omits revenue and can even be empty. -/
theorem run_valuations_insufficient_data_iff (msOf : String → Option ℤ)
    (request : ValuationRequest ℝ) (enriched : EnrichedInput ℝ) (market : MarketData ℝ) :
    ((run_valuations msOf request enriched market).isOk = false ↔
      ((can_run_comps enriched (resolved_revenue request enriched) market ||
        can_run_dcf enriched
          (resolved_projections request enriched (resolved_revenue request enriched)).1 ||
        can_run_last_round enriched (resolved_last_round request enriched).1
          (resolved_last_round request enriched).2.1) = false ∨
       (blended_of msOf request enriched market).fair_value = 0)) ∧
    (revenue_named (identify_missing request enriched (resolved_revenue request enriched)
        market) = true ↔
      option_truthy (resolved_revenue request enriched) = false) := by
  constructor
  · unfold run_valuations
    cases hx : (can_run_comps enriched (resolved_revenue request enriched) market ||
        can_run_dcf enriched
          (resolved_projections request enriched (resolved_revenue request enriched)).1 ||
        can_run_last_round enriched (resolved_last_round request enriched).1
          (resolved_last_round request enriched).2.1) with
    | false => simp [hx, Except.isOk, Except.toBool]
    | true =>
      by_cases hf : (blended_of msOf request enriched market).fair_value = 0
      · simp [hx, hf, Except.isOk, Except.toBool]
      · simp [hx, hf, Except.isOk, Except.toBool]
  · unfold identify_missing revenue_named
    cases ht : option_truthy (resolved_revenue request enriched) with
    | false =>
      cases hl : (match enriched.enrichment_notes with
        | some n => n ≠ "" && str_contains n "Fallback"
        | none => false) with
      | false =>
        simp [ht, hl]
        try decide
      | true =>
        simp [ht, hl]
        try decide
    | true =>
      cases hc : decide (market.comparables.length = 0) with
      | false => simp [ht, hc]
      | true =>
        simp [ht, hc]
        try decide

/-- A peer company used in the C1 counterexample market data. -/
def c1_comp : CompanyFinancials ℝ :=
  ⟨"PEER", none, none, none, none, none, some 2, none, none, none, none, none⟩

/-- C1 counterexample request: revenue is provided (resolved revenue 100). -/
def c1_request : ValuationRequest ℝ :=
  { company_name := "Acme", revenue := some 100 }

/-- C1 counterexample enrichment: no applicable methods at all. -/
def c1_enriched : EnrichedInput ℝ :=
  { sector := "Tech" }

/-- C1 counterexample market data: one comparable is available. -/
def c1_market : MarketData ℝ :=
  { comparables := [c1_comp] }

/-- The missing-fields list of a raised `InsufficientDataError`, if any. -/
def missing_of (e : Except InsufficientDataError (BlendedValuation ℝ)) :
    Option (List String) :=
  match e with
  | .error err => some err.missing_fields
  | .ok _ => none

/-- Counterexample to C1 as stated: with revenue resolved (100), one
comparable fetched, but an empty applicable-methods list, `run_valuations`
raises `InsufficientDataError` with an *empty* missing-prerequisites list —
neither non-empty nor naming revenue. -/
theorem run_valuations_empty_missing_counterexample :
    missing_of (run_valuations (fun _ => none) c1_request c1_enriched c1_market) = some [] := by
  have hcan : (can_run_comps c1_enriched (resolved_revenue c1_request c1_enriched) c1_market ||
      can_run_dcf c1_enriched (resolved_projections c1_request c1_enriched
        (resolved_revenue c1_request c1_enriched)).1 ||
      can_run_last_round c1_enriched (resolved_last_round c1_request c1_enriched).1
        (resolved_last_round c1_request c1_enriched).2.1) = false := by
    simp [can_run_comps, can_run_dcf, can_run_last_round, c1_enriched]
  have hmiss : identify_missing c1_request c1_enriched
      (resolved_revenue c1_request c1_enriched) c1_market = [] := by
    norm_num [identify_missing, resolved_revenue, c1_request, c1_enriched, c1_market,
      option_truthy]
  unfold run_valuations
  simp only [hcan, hmiss, Bool.or_self, Bool.not_false, if_true, missing_of]
